import Mathlib

/-!
Shallow embedding of the reproducibility utilities of the `presentar`
repository (src/scripts/reproducibility.py, src/scripts/set_seeds.py):
seed broadcasting across the Python RNG, NumPy, PyTorch, TensorFlow and
JAX, a reproducibility verifier, and an experiment manifest builder with
a truncated SHA-256 checksum.
-/

namespace Presentar

/-- Python exception model: the broadcaster code distinguishes only
`ImportError` (caught per backend) from every other exception
(propagated), so errors are tagged accordingly. -/
inductive PyErr where
  | importError : PyErr
  | otherError : Nat → PyErr
  deriving DecidableEq, Repr

/-- State of one pseudo-random generator: `seeded s` is the state a
generator is left in immediately after its seeding call with seed `s`
(a pure function of `s`); `other n` stands for any state not of that
form (fresh-from-entropy, or advanced by draws). -/
inductive RngState where
  | seeded : Int → RngState
  | other : Nat → RngState
  deriving DecidableEq, Repr

/-- Observable seeding actions, recorded in order of execution so that
ordering claims about the broadcasters can be stated. -/
inductive Action where
  | seedPythonRandom
  | seedNumpy
  | setHashSeed
  | seedTorch
  | seedTf
  | seedJax
  deriving DecidableEq, Repr

/-- `os.environ[k] = v`: Python dicts update an existing key in place
(preserving its position) and append a missing key. -/
def envSet (env : List (String × String)) (k v : String) : List (String × String) :=
  match env with
  | [] => [(k, v)]
  | (k0, v0) :: rest =>
      if k0 = k then (k0, v) :: rest else (k0, v0) :: envSet rest k v

/-- `os.environ.get(k)`. -/
def envGet (env : List (String × String)) (k : String) : Option String :=
  match env with
  | [] => none
  | (k0, v0) :: rest => if k0 = k then some v0 else envGet rest k

/-- Process state visible to the seeding code.  The `…Import` and
`…SeedErr` fields model the environment's behaviour: whether importing a
backend raises (and with what), and whether the backend's seeding call
raises.  `none` means success; these fields are configuration and are
never written by the code under test. -/
structure PyState where
  /-- Module-level global `RANDOM_SEED`, resolved once at import time. -/
  randomSeedGlobal : Int
  /-- State of the `random` module generator. -/
  pyRng : RngState
  /-- State of the `np.random` legacy global generator. -/
  npRng : RngState
  /-- State of PyTorch's CPU generator. -/
  torchRng : RngState
  /-- State of the current CUDA device generator. -/
  cudaRng : RngState
  /-- State of all CUDA device generators (`manual_seed_all`). -/
  cudaRngAll : RngState
  cudnnDeterministic : Bool
  cudnnBenchmark : Bool
  /-- State of TensorFlow's global generator. -/
  tfRng : RngState
  environ : List (String × String)
  /-- Outcome of `import torch` (`none` = module present and imports). -/
  torchImport : Option PyErr
  torchCudaAvailable : Bool
  /-- Outcome of `torch.manual_seed` when reached. -/
  torchSeedErr : Option PyErr
  /-- Outcome of `import tensorflow`. -/
  tfImport : Option PyErr
  /-- Outcome of `tf.random.set_seed` when reached. -/
  tfSeedErr : Option PyErr
  /-- Outcome of `import numpy` in the optional-numpy script. -/
  npImport : Option PyErr
  /-- Outcome of `np.random.seed`. -/
  npSeedErr : Option PyErr
  /-- Outcome of `import jax`. -/
  jaxImport : Option PyErr
  deriving DecidableEq, Repr

/-- The PyTorch block of `reproducibility.set_seed` (lines 37-48):
`try: import torch; torch.manual_seed(seed); if cuda: … except
ImportError: pass`.  Only `ImportError` is caught; at the catch the
state is whatever the successful steps before the raise produced. -/
def torchBlock (seed : Int) (st : PyState) : Except PyErr (PyState × List Action) :=
  let body : Except PyErr (PyState × List Action) :=
    match st.torchImport with
    | some e => .error e
    | none =>
        match st.torchSeedErr with
        | some e => .error e
        | none =>
            let st1 := { st with torchRng := .seeded seed }
            let st2 :=
              if st1.torchCudaAvailable then
                { st1 with cudaRng := .seeded seed, cudaRngAll := .seeded seed,
                           cudnnDeterministic := true, cudnnBenchmark := false }
              else st1
            .ok (st2, [Action.seedTorch])
  match body with
  | .error .importError => .ok (st, [])
  | .error e => .error e
  | .ok r => .ok r

/-- The TensorFlow block of `reproducibility.set_seed` (lines 50-56). -/
def tfBlock (seed : Int) (st : PyState) : Except PyErr (PyState × List Action) :=
  let body : Except PyErr (PyState × List Action) :=
    match st.tfImport with
    | some e => .error e
    | none =>
        match st.tfSeedErr with
        | some e => .error e
        | none => .ok ({ st with tfRng := .seeded seed }, [Action.seedTf])
  match body with
  | .error .importError => .ok (st, [])
  | .error e => .error e
  | .ok r => .ok r

/-- `reproducibility.set_seed(seed)`: `random.seed`, then
`np.random.seed` (numpy is a module-level import there, not optional),
then `os.environ["PYTHONHASHSEED"] = str(seed)`, then the optional
PyTorch and TensorFlow blocks.  Returns the new state together with the
trace of seeding actions performed. -/
def set_seed (seed : Int) (st : PyState) : Except PyErr (PyState × List Action) :=
  let st1 := { st with pyRng := RngState.seeded seed }
  match st1.npSeedErr with
  | some e => .error e
  | none =>
      let st2 := { st1 with npRng := RngState.seeded seed }
      let st3 := { st2 with environ := envSet st2.environ "PYTHONHASHSEED" (toString seed) }
      match torchBlock seed st3 with
      | .error e => .error e
      | .ok (st4, tr4) =>
          match tfBlock seed st4 with
          | .error e => .error e
          | .ok (st5, tr5) =>
              .ok (st5, [Action.seedPythonRandom, Action.seedNumpy, Action.setHashSeed]
                        ++ tr4 ++ tr5)

/-- `reproducibility.get_seed()`: returns the module-level
`RANDOM_SEED` global. -/
def get_seed (st : PyState) : Int :=
  st.randomSeedGlobal

/-- `set_seeds._set_numpy_seed(seed)`: `try: import numpy;
np.random.seed(seed); print(…) except ImportError: pass`. -/
def _set_numpy_seed (seed : Int) (st : PyState) :
    Except PyErr (PyState × List Action × List String) :=
  let body : Except PyErr (PyState × List Action × List String) :=
    match st.npImport with
    | some e => .error e
    | none =>
        match st.npSeedErr with
        | some e => .error e
        | none =>
            .ok ({ st with npRng := .seeded seed }, [Action.seedNumpy],
                 ["NumPy seed set to " ++ toString seed])
  match body with
  | .error .importError => .ok (st, [], [])
  | .error e => .error e
  | .ok r => .ok r

/-- `set_seeds._set_pytorch_seed(seed)` (lines 24-36): same try/except
structure as the PyTorch block of `reproducibility.set_seed`, plus a
confirmation print. -/
def _set_pytorch_seed (seed : Int) (st : PyState) :
    Except PyErr (PyState × List Action × List String) :=
  let body : Except PyErr (PyState × List Action × List String) :=
    match st.torchImport with
    | some e => .error e
    | none =>
        match st.torchSeedErr with
        | some e => .error e
        | none =>
            let st1 := { st with torchRng := RngState.seeded seed }
            let st2 :=
              if st1.torchCudaAvailable then
                { st1 with cudaRng := RngState.seeded seed, cudaRngAll := RngState.seeded seed,
                           cudnnDeterministic := true, cudnnBenchmark := false }
              else st1
            .ok (st2, [Action.seedTorch], ["PyTorch seed set to " ++ toString seed])
  match body with
  | .error .importError => .ok (st, [], [])
  | .error e => .error e
  | .ok r => .ok r

/-- `set_seeds._set_tensorflow_seed(seed)` (lines 39-46). -/
def _set_tensorflow_seed (seed : Int) (st : PyState) :
    Except PyErr (PyState × List Action × List String) :=
  let body : Except PyErr (PyState × List Action × List String) :=
    match st.tfImport with
    | some e => .error e
    | none =>
        match st.tfSeedErr with
        | some e => .error e
        | none =>
            .ok ({ st with tfRng := RngState.seeded seed }, [Action.seedTf],
                 ["TensorFlow seed set to " ++ toString seed])
  match body with
  | .error .importError => .ok (st, [], [])
  | .error e => .error e
  | .ok r => .ok r

/-- `set_seeds._set_jax_seed(seed)` (lines 49-55): only documents the
PRNGKey pattern; no generator state is touched. -/
def _set_jax_seed (seed : Int) (st : PyState) :
    Except PyErr (PyState × List Action × List String) :=
  let body : Except PyErr (PyState × List Action × List String) :=
    match st.jaxImport with
    | some e => .error e
    | none =>
        .ok (st, [Action.seedJax],
             ["JAX: Use jax.random.PRNGKey(" ++ toString seed ++ ")"])
  match body with
  | .error .importError => .ok (st, [], [])
  | .error e => .error e
  | .ok r => .ok r

/-- `set_seeds.set_all_seeds(seed)` (lines 58-70): `random.seed`, then
`os.environ["PYTHONHASHSEED"]`, then the NumPy, PyTorch, TensorFlow and
JAX helpers in that order, then a final confirmation print.  Returns
state, action trace and printed lines. -/
def set_all_seeds (seed : Int) (st : PyState) :
    Except PyErr (PyState × List Action × List String) :=
  let st1 := { st with pyRng := RngState.seeded seed }
  let st2 := { st1 with environ := envSet st1.environ "PYTHONHASHSEED" (toString seed) }
  match _set_numpy_seed seed st2 with
  | .error e => .error e
  | .ok (st3, tr3, out3) =>
      match _set_pytorch_seed seed st3 with
      | .error e => .error e
      | .ok (st4, tr4, out4) =>
          match _set_tensorflow_seed seed st4 with
          | .error e => .error e
          | .ok (st5, tr5, out5) =>
              match _set_jax_seed seed st5 with
              | .error e => .error e
              | .ok (st6, tr6, out6) =>
                  .ok (st6,
                       [Action.seedPythonRandom, Action.setHashSeed]
                         ++ tr3 ++ tr4 ++ tr5 ++ tr6,
                       out3 ++ out4 ++ out5 ++ out6
                         ++ ["All seeds set to " ++ toString seed])

/-- Python `int(s)` on the strings that matter here: optional sign
followed by at least one decimal digit (`none` models `ValueError`). -/
def pyInt? (s : String) : Option Int :=
  let digits (cs : List Char) : Option Nat :=
    if cs.isEmpty then none
    else if cs.all (fun c => c.isDigit) then
      some (cs.foldl (fun acc c => acc * 10 + (c.toNat - 48)) 0)
    else none
  match s.data with
  | '-' :: rest => (digits rest).map (fun n => -(n : Int))
  | '+' :: rest => (digits rest).map (fun n => (n : Int))
  | cs => (digits cs).map (fun n => (n : Int))

/-- Module-load resolution of `RANDOM_SEED`
(`int(os.environ.get("RANDOM_SEED", "42"))` at import time);
`none` models the module failing to import with `ValueError`. -/
def resolveRandomSeed (env : List (String × String)) : Option Int :=
  pyInt? ((envGet env "RANDOM_SEED").getD "42")

/-- The `verify_reproducibility` loop (lines 79-83): for each of
`n_runs` iterations re-apply the seed via `set_seed`, invoke `func`,
and collect its result; any exception propagates. -/
def runLoop {α : Type} (func : PyState → Except PyErr (α × PyState)) :
    Nat → Int → PyState → Except PyErr (List α × PyState)
  | 0, _, st => .ok ([], st)
  | n + 1, seed, st =>
      match set_seed seed st with
      | .error e => .error e
      | .ok (st1, _) =>
          match func st1 with
          | .error e => .error e
          | .ok (r, st2) =>
              match runLoop func n seed st2 with
              | .error e => .error e
              | .ok (rs, st3) => .ok (r :: rs, st3)

/-- `all(r == results[0] for r in results)`: vacuously true on an empty
list (Python's `all` of an empty generator). -/
def allEqHead {α : Type} [DecidableEq α] : List α → Bool
  | [] => true
  | r0 :: rest => (r0 :: rest).all (fun r => r = r0)

/-- `reproducibility.verify_reproducibility(func, n_runs, seed)`
(lines 68-85): run the loop, then return whether every collected result
equals the first. -/
def verify_reproducibility {α : Type} [DecidableEq α]
    (func : PyState → Except PyErr (α × PyState)) (n_runs : Nat) (seed : Int)
    (st : PyState) : Except PyErr (Bool × PyState) :=
  match runLoop func n_runs seed st with
  | .error e => .error e
  | .ok (rs, st') => .ok (allEqHead rs, st')

/-! JSON values and `json.dumps`.  Manifests are Python dicts holding
strings, integers, booleans, `None`, lists and nested dicts; floats are
outside the embedding. -/

/-- A JSON-serializable Python value. -/
inductive JVal where
  | jnull : JVal
  | jbool : Bool → JVal
  | jint : Int → JVal
  | jstr : String → JVal
  | jarr : List JVal → JVal
  | jobj : List (String × JVal) → JVal

/-- Lowercase hex digits. -/
def hexDigitChars : List Char :=
  "0123456789abcdef".data

/-- `n`-th lowercase hex digit. -/
def hexChar (n : Nat) : Char :=
  hexDigitChars.getD n '0'

/-- Four-digit lowercase hex, as used by `\uXXXX` escapes. -/
def hex4 (n : Nat) : String :=
  String.mk [hexChar (n / 4096 % 16), hexChar (n / 256 % 16),
             hexChar (n / 16 % 16), hexChar (n % 16)]

/-- `json.dumps` escaping of one character with the default
`ensure_ascii=True`: short escapes for the quote, the backslash and the common control
characters, `\uXXXX` for other controls and all non-ASCII characters,
with surrogate pairs above U+FFFF. -/
def escChar (c : Char) : String :=
  if c = '"' then "\\\""
  else if c = '\\' then "\\\\"
  else if c = '\n' then "\\n"
  else if c = '\t' then "\\t"
  else if c = '\r' then "\\r"
  else if c = '\x08' then "\\b"
  else if c = '\x0c' then "\\f"
  else if c.toNat < 0x20 then "\\u" ++ hex4 c.toNat
  else if c.toNat < 0x7f then String.mk [c]
  else if c.toNat < 0x10000 then "\\u" ++ hex4 c.toNat
  else
    let n := c.toNat - 0x10000
    "\\u" ++ hex4 (0xd800 + n / 1024) ++ "\\u" ++ hex4 (0xdc00 + n % 1024)

/-- `json.dumps` of a Python string. -/
def dumpStr (s : String) : String :=
  "\"" ++ String.join (s.data.map escChar) ++ "\""

/-- Insert a field into a key-sorted field list, before the first field
with a `≥` key (stable, matching Python's stable `sorted`). -/
def insertField (p : String × JVal) : List (String × JVal) → List (String × JVal)
  | [] => [p]
  | q :: qs => if p.1 ≤ q.1 then p :: q :: qs else q :: insertField p qs

/-- Sort a field list by key, lexicographically on code points
(Python's `sort_keys=True` ordering). -/
def sortByKey (l : List (String × JVal)) : List (String × JVal) :=
  match l with
  | [] => []
  | p :: ps => insertField p (sortByKey ps)

mutual

/-- Recursively sort every object's keys; `json.dumps(sort_keys=True)`
is the plain dump of this canonical form. -/
def sortAllV : JVal → JVal
  | .jnull => .jnull
  | .jbool b => .jbool b
  | .jint n => .jint n
  | .jstr s => .jstr s
  | .jarr xs => .jarr (sortAllL xs)
  | .jobj fs => .jobj (sortByKey (sortAllF fs))

/-- `sortAllV` mapped over an array's elements. -/
def sortAllL : List JVal → List JVal
  | [] => []
  | x :: xs => sortAllV x :: sortAllL xs

/-- `sortAllV` mapped over a field list's values. -/
def sortAllF : List (String × JVal) → List (String × JVal)
  | [] => []
  | (k, v) :: fs => (k, sortAllV v) :: sortAllF fs

end

mutual

/-- Serialize a (already key-sorted) value the way `json.dumps` does
with its default separators `", "` and `": "`. -/
def jdumpsV : JVal → String
  | .jnull => "null"
  | .jbool b => if b then "true" else "false"
  | .jint n => toString n
  | .jstr s => dumpStr s
  | .jarr xs => "[" ++ jdumpsL xs ++ "]"
  | .jobj fs => "\x7b" ++ jdumpsF fs ++ "\x7d"

/-- Comma-joined dump of array elements. -/
def jdumpsL : List JVal → String
  | [] => ""
  | [x] => jdumpsV x
  | x :: y :: rest => jdumpsV x ++ ", " ++ jdumpsL (y :: rest)

/-- Comma-joined dump of `"key": value` pairs. -/
def jdumpsF : List (String × JVal) → String
  | [] => ""
  | [(k, v)] => dumpStr k ++ ": " ++ jdumpsV v
  | (k, v) :: q :: rest => dumpStr k ++ ": " ++ jdumpsV v ++ ", " ++ jdumpsF (q :: rest)

end

/-- `json.dumps(v, sort_keys=True)`. -/
def jdumps (v : JVal) : String :=
  jdumpsV (sortAllV v)

/-- UTF-8 encoding of one character (`str.encode()`). -/
def utf8Char (c : Char) : List Nat :=
  let n := c.toNat
  if n < 0x80 then [n]
  else if n < 0x800 then [0xc0 + n / 64, 0x80 + n % 64]
  else if n < 0x10000 then [0xe0 + n / 4096, 0x80 + n / 64 % 64, 0x80 + n % 64]
  else [0xf0 + n / 262144, 0x80 + n / 4096 % 64, 0x80 + n / 64 % 64, 0x80 + n % 64]

/-- UTF-8 encoding of a string as a byte list. -/
def utf8Encode (s : String) : List Nat :=
  s.data.flatMap utf8Char

/-! SHA-256 (`hashlib.sha256`), over byte lists, with 32-bit words as
naturals reduced modulo `2^32`. -/

/-- Truncate to a 32-bit word. -/
def w32 (n : Nat) : Nat :=
  n % 4294967296

/-- Right rotation of a 32-bit word by `n` bits. -/
def rotr (n x : Nat) : Nat :=
  w32 ((x >>> n) ||| (x <<< (32 - n)))

/-- SHA-256 `Ch(e,f,g)`. -/
def shaCh (e f g : Nat) : Nat :=
  (e &&& f) ^^^ ((e ^^^ 4294967295) &&& g)

/-- SHA-256 `Maj(a,b,c)`. -/
def shaMaj (a b c : Nat) : Nat :=
  (a &&& b) ^^^ (a &&& c) ^^^ (b &&& c)

/-- SHA-256 `Σ0`. -/
def bigSigma0 (x : Nat) : Nat :=
  rotr 2 x ^^^ rotr 13 x ^^^ rotr 22 x

/-- SHA-256 `Σ1`. -/
def bigSigma1 (x : Nat) : Nat :=
  rotr 6 x ^^^ rotr 11 x ^^^ rotr 25 x

/-- SHA-256 `σ0`. -/
def smallSigma0 (x : Nat) : Nat :=
  rotr 7 x ^^^ rotr 18 x ^^^ (x >>> 3)

/-- SHA-256 `σ1`. -/
def smallSigma1 (x : Nat) : Nat :=
  rotr 17 x ^^^ rotr 19 x ^^^ (x >>> 10)

/-- The eight SHA-256 working/hash registers. -/
structure Sha256State where
  a : Nat
  b : Nat
  c : Nat
  d : Nat
  e : Nat
  f : Nat
  g : Nat
  h : Nat
  deriving DecidableEq, Repr

/-- SHA-256 initial hash value (decimal form of the standard
constants). -/
def shaInit : Sha256State :=
  ⟨1779033703, 3144134277, 1013904242, 2773480762,
   1359893119, 2600822924, 528734635, 1541459225⟩

/-- SHA-256 round constants (decimal form of the standard table). -/
def shaK : List Nat :=
  [1116352408, 1899447441, 3049323471, 3921009573, 961987163, 1508970993,
   2453635748, 2870763221, 3624381080, 310598401, 607225278, 1426881987,
   1925078388, 2162078206, 2614888103, 3248222580, 3835390401, 4022224774,
   264347078, 604807628, 770255983, 1249150122, 1555081692, 1996064986,
   2554220882, 2821834349, 2952996808, 3210313671, 3336571891, 3584528711,
   113926993, 338241895, 666307205, 773529912, 1294757372, 1396182291,
   1695183700, 1986661051, 2177026350, 2456956037, 2730485921, 2820302411,
   3259730800, 3345764771, 3516065817, 3600352804, 4094571909, 275423344,
   430227734, 506948616, 659060556, 883997877, 958139571, 1322822218,
   1537002063, 1747873779, 1955562222, 2024104815, 2227730452, 2361852424,
   2428436474, 2756734187, 3204031479, 3329325298]

/-- Big-endian byte expansion of `n` on `k` bytes. -/
def beBytes (k n : Nat) : List Nat :=
  match k with
  | 0 => []
  | k' + 1 => beBytes k' (n / 256) ++ [n % 256]

/-- SHA-256 message padding: append `0x80`, zeros to 56 mod 64, then
the bit length on 8 big-endian bytes. -/
def shaPad (msg : List Nat) : List Nat :=
  let l := msg.length
  msg ++ [0x80] ++ List.replicate ((119 - l % 64) % 64) 0 ++ beBytes 8 (8 * l)

/-- Group bytes into big-endian 32-bit words. -/
def bytesToWords : List Nat → List Nat
  | b1 :: b2 :: b3 :: b4 :: rest =>
      (b1 * 16777216 + b2 * 65536 + b3 * 256 + b4) :: bytesToWords rest
  | _ => []

/-- One step of the message-schedule extension: append the next word. -/
def extendStep (ws : List Nat) : List Nat :=
  let n := ws.length
  ws ++ [w32 (smallSigma1 (ws.getD (n - 2) 0) + ws.getD (n - 7) 0 +
              smallSigma0 (ws.getD (n - 15) 0) + ws.getD (n - 16) 0)]

/-- Extend the 16 chunk words to the 64-entry message schedule. -/
def shaSchedule (ws : List Nat) : List Nat :=
  Nat.rec ws (fun _ acc => extendStep acc) 48

/-- One SHA-256 compression round with round constant `k` and schedule
word `w`. -/
def shaRound (st : Sha256State) (kw : Nat × Nat) : Sha256State :=
  let t1 := w32 (st.h + bigSigma1 st.e + shaCh st.e st.f st.g + kw.1 + kw.2)
  let t2 := w32 (bigSigma0 st.a + shaMaj st.a st.b st.c)
  ⟨w32 (t1 + t2), st.a, st.b, st.c, w32 (st.d + t1), st.e, st.f, st.g⟩

/-- Pointwise modular addition of two register files. -/
def shaAdd (x y : Sha256State) : Sha256State :=
  ⟨w32 (x.a + y.a), w32 (x.b + y.b), w32 (x.c + y.c), w32 (x.d + y.d),
   w32 (x.e + y.e), w32 (x.f + y.f), w32 (x.g + y.g), w32 (x.h + y.h)⟩

/-- Process one 64-byte chunk. -/
def shaChunk (hsh : Sha256State) (chunk : List Nat) : Sha256State :=
  let ws := shaSchedule (bytesToWords chunk)
  shaAdd hsh ((shaK.zip ws).foldl shaRound hsh)

/-- Split into 64-byte chunks; `fuel` bounds the recursion and is
instantiated with the list length. -/
def chunks64 : Nat → List Nat → List (List Nat)
  | 0, _ => []
  | fuel + 1, bs =>
      if bs.isEmpty then [] else bs.take 64 :: chunks64 fuel (bs.drop 64)

/-- SHA-256 of a byte list: final register file. -/
def sha256 (msg : List Nat) : Sha256State :=
  let padded := shaPad msg
  (chunks64 padded.length padded).foldl shaChunk shaInit

/-- Digest as 32 big-endian bytes. -/
def digestBytes (st : Sha256State) : List Nat :=
  beBytes 4 st.a ++ beBytes 4 st.b ++ beBytes 4 st.c ++ beBytes 4 st.d ++
  beBytes 4 st.e ++ beBytes 4 st.f ++ beBytes 4 st.g ++ beBytes 4 st.h

/-- Lowercase hex characters of a byte list (`hexdigest()`). -/
def bytesToHexChars (bs : List Nat) : List Char :=
  bs.flatMap (fun b => [hexChar (b / 16 % 16), hexChar (b % 16)])

/-- `hashlib.sha256(msg).hexdigest()` as a character list. -/
def sha256hexChars (msg : List Nat) : List Char :=
  bytesToHexChars (digestBytes (sha256 msg))

/-! The manifest builder and store
(`create_experiment_manifest` / `save_experiment`). -/

/-- An experiment manifest after checksum attachment.  `timestamp`,
`python_version` and `numpy_version` are taken as inputs of the build
(they model `datetime.utcnow()`, `sys.version_info` and
`np.__version__` at build time). -/
structure Manifest where
  name : String
  timestamp : String
  seed : Int
  python_version : String
  numpy_version : String
  params : List (String × JVal)
  reproducible : Bool
  checksum : String

/-- The dict built by lines 105-113 of `create_experiment_manifest`,
before the checksum is attached, with its keys in insertion order. -/
def manifestCore (name : String) (seed : Int) (params : List (String × JVal))
    (timestamp pyVersion npVersion : String) : JVal :=
  .jobj [("name", .jstr name),
         ("timestamp", .jstr timestamp),
         ("seed", .jint seed),
         ("python_version", .jstr pyVersion),
         ("numpy_version", .jstr npVersion),
         ("params", .jobj params),
         ("reproducible", .jbool true)]

/-- The canonical string hashed on line 116:
`json.dumps(manifest, sort_keys=True)` of the seven-field record. -/
def manifestStr (name : String) (seed : Int) (params : List (String × JVal))
    (timestamp pyVersion npVersion : String) : String :=
  jdumps (manifestCore name seed params timestamp pyVersion npVersion)

/-- `create_experiment_manifest(name, seed, params)` (lines 88-119):
populate the descriptive fields (`params or {}` turns `None` into an
empty dict), serialize with sorted keys, and attach the first 16 hex
characters of the SHA-256 digest as `checksum`. -/
def create_experiment_manifest (name : String) (seed : Int)
    (params : Option (List (String × JVal)))
    (timestamp pyVersion npVersion : String) : Manifest :=
  let ps := params.getD []
  let manifest_str := manifestStr name seed ps timestamp pyVersion npVersion
  { name := name
    timestamp := timestamp
    seed := seed
    python_version := pyVersion
    numpy_version := npVersion
    params := ps
    reproducible := true
    checksum := String.mk ((sha256hexChars (utf8Encode manifest_str)).take 16) }

/-- The manifest as the JSON record written to disk: the dict of
`create_experiment_manifest` with `checksum` appended last. -/
def manifestToJson (m : Manifest) : JVal :=
  .jobj [("name", .jstr m.name),
         ("timestamp", .jstr m.timestamp),
         ("seed", .jint m.seed),
         ("python_version", .jstr m.python_version),
         ("numpy_version", .jstr m.numpy_version),
         ("params", .jobj m.params),
         ("reproducible", .jbool m.reproducible),
         ("checksum", .jstr m.checksum)]

/-- A file store: paths mapped to the JSON records written there.  The
`json` stdlib codec is treated as a faithful external serializer, so
file contents are modelled at the JSON-value level. -/
def FileStore : Type :=
  List (String × JVal)

/-- `open(path, "w")` followed by `json.dump`: overwrite or create. -/
def fsWrite (fs : FileStore) (path : String) (v : JVal) : FileStore :=
  (path, v) :: fs.filter (fun e => e.1 ≠ path)

/-- Read a stored file back (`json.load` on the written file). -/
def fsRead (fs : FileStore) (path : String) : Option JVal :=
  match fs with
  | [] => none
  | (p, v) :: rest => if p = path then some v else fsRead rest path

/-- The output path derived on lines 135-136:
`output_dir / f"{name}_{timestamp colons→dashes}.json"`. -/
def savePath (m : Manifest) (output_dir : String) : String :=
  output_dir ++ "/" ++ m.name ++ "_" ++ (m.timestamp.replace ":" "-") ++ ".json"

/-- `save_experiment(manifest, output_dir)` (lines 122-141): write the
full record (checksum included) and return the path. -/
def save_experiment (m : Manifest) (fs : FileStore) (output_dir : String) :
    String × FileStore :=
  let path := savePath m output_dir
  (path, fsWrite fs path (manifestToJson m))

/-- Look up a key in a JSON object (first match, as in a Python dict). -/
def getKey (v : JVal) (k : String) : Option JVal :=
  match v with
  | .jobj fs => lookupField fs k
  | _ => none
where
  /-- First field with the given key. -/
  lookupField : List (String × JVal) → String → Option JVal
    | [], _ => none
    | (k0, v0) :: rest, k => if k0 = k then some v0 else lookupField rest k

/-- Drop a key from a JSON object (what an integrity-checking reader
does to the `checksum` field before re-hashing). -/
def removeKey (v : JVal) : String → JVal :=
  match v with
  | .jobj fs => fun k => .jobj (dropField fs k)
  | w => fun _ => w
where
  /-- Remove every field with the given key. -/
  dropField : List (String × JVal) → String → List (String × JVal)
    | [], _ => []
    | (k0, v0) :: rest, k => if k0 = k then dropField rest k else (k0, v0) :: dropField rest k

/-- Reader-side integrity check: strip `checksum`, re-serialize with
sorted keys, hash, truncate to 16 hex characters, compare. -/
def verifyChecksum (v : JVal) : Bool :=
  match getKey v "checksum" with
  | some (.jstr c) =>
      String.mk ((sha256hexChars (utf8Encode (jdumps (removeKey v "checksum")))).take 16) == c
  | _ => false

/-! Concrete states and predicates used by the theorems below. -/

/-- A healthy all-backends-present state: every import succeeds, no
seeding call raises, no GPU, empty environment, generators unseeded. -/
def initState : PyState where
  randomSeedGlobal := 42
  pyRng := .other 0
  npRng := .other 0
  torchRng := .other 0
  cudaRng := .other 0
  cudaRngAll := .other 0
  cudnnDeterministic := false
  cudnnBenchmark := false
  tfRng := .other 0
  environ := []
  torchImport := none
  torchCudaAvailable := false
  torchSeedErr := none
  tfImport := none
  tfSeedErr := none
  npImport := none
  npSeedErr := none
  jaxImport := none

/-- `set_seed` raises on `st` iff some non-`ImportError` is configured
to fire: this Boolean says that none is. -/
def setSeedOk (st : PyState) : Bool :=
  (match st.npSeedErr with
   | some _ => false
   | none => true) &&
  (match st.torchImport with
   | some .importError => true
   | some (.otherError _) => false
   | none =>
       match st.torchSeedErr with
       | some (.otherError _) => false
       | _ => true) &&
  (match st.tfImport with
   | some .importError => true
   | some (.otherError _) => false
   | none =>
       match st.tfSeedErr with
       | some (.otherError _) => false
       | _ => true)

/-- The application order asserted by the spec for the broadcaster:
language generator strictly before the hash-randomization control,
which comes strictly before every backend, with NumPy before the two ML
backends. -/
def claimedBroadcastOrder (tr : List Action) : Bool :=
  decide (tr.indexOf Action.seedPythonRandom < tr.indexOf Action.setHashSeed) &&
  decide (tr.indexOf Action.setHashSeed < tr.indexOf Action.seedNumpy) &&
  decide (tr.indexOf Action.seedNumpy < tr.indexOf Action.seedTorch) &&
  decide (tr.indexOf Action.seedNumpy < tr.indexOf Action.seedTf)

/-- A sample computation for witnesses: reads the Python generator
state, raises nothing, changes nothing. -/
def sampleDraw (st : PyState) : Except PyErr (RngState × PyState) :=
  .ok (st.pyRng, st)

/-- A computation that always raises (models a crashing `func`). -/
def crashingComp (_st : PyState) : Except PyErr (RngState × PyState) :=
  .error (.otherError 7)

/-! Supporting lemmas. -/

/-- Writing the same key-value pair twice into the environment is the
same as writing it once. -/
theorem envSet_envSet (env : List (String × String)) (k v : String) :
    envSet (envSet env k v) k v = envSet env k v := by
  induction env with
  | nil => simp [envSet]
  | cons p rest ih =>
      obtain ⟨k0, v0⟩ := p
      by_cases h : k0 = k <;> simp [envSet, h, ih]

/-- `torchBlock` only writes the five PyTorch-owned fields: every
other field of the result equals the input's. -/
theorem torchBlock_frame (s : Int) {st st' : PyState} {tr : List Action}
    (h : torchBlock s st = .ok (st', tr)) :
    st'.randomSeedGlobal = st.randomSeedGlobal ∧ st'.pyRng = st.pyRng ∧
    st'.npRng = st.npRng ∧ st'.tfRng = st.tfRng ∧ st'.environ = st.environ ∧
    st'.torchImport = st.torchImport ∧ st'.torchCudaAvailable = st.torchCudaAvailable ∧
    st'.torchSeedErr = st.torchSeedErr ∧ st'.tfImport = st.tfImport ∧
    st'.tfSeedErr = st.tfSeedErr ∧ st'.npImport = st.npImport ∧
    st'.npSeedErr = st.npSeedErr ∧ st'.jaxImport = st.jaxImport := by
  obtain ⟨g, pyr, npr, tor, cur, cua, cdet, cbm, tfr, env, tIm, tCu, tSe, fIm, fSe, nIm, nSe, jIm⟩ := st
  rcases tIm with _ | e
  · rcases tSe with _ | e2
    · cases tCu <;> simp [torchBlock] at h <;> obtain ⟨rfl, rfl⟩ := h <;>
        exact ⟨rfl, rfl, rfl, rfl, rfl, rfl, rfl, rfl, rfl, rfl, rfl, rfl, rfl⟩
    · rcases e2 with _ | k <;> simp [torchBlock] at h
      obtain ⟨rfl, rfl⟩ := h
      exact ⟨rfl, rfl, rfl, rfl, rfl, rfl, rfl, rfl, rfl, rfl, rfl, rfl, rfl⟩
  · rcases e with _ | k <;> simp [torchBlock] at h
    obtain ⟨rfl, rfl⟩ := h
    exact ⟨rfl, rfl, rfl, rfl, rfl, rfl, rfl, rfl, rfl, rfl, rfl, rfl, rfl⟩

/-- Re-running `torchBlock` on any state with the same PyTorch
configuration whose PyTorch-owned fields already hold the first run's
results is a no-op with the same trace. -/
theorem torchBlock_stable (s : Int) {st st' : PyState} {tr : List Action}
    (h : torchBlock s st = .ok (st', tr)) (st2 : PyState)
    (hIm : st2.torchImport = st.torchImport) (hSe : st2.torchSeedErr = st.torchSeedErr)
    (hCu : st2.torchCudaAvailable = st.torchCudaAvailable)
    (m1 : st2.torchRng = st'.torchRng) (m2 : st2.cudaRng = st'.cudaRng)
    (m3 : st2.cudaRngAll = st'.cudaRngAll)
    (m4 : st2.cudnnDeterministic = st'.cudnnDeterministic)
    (m5 : st2.cudnnBenchmark = st'.cudnnBenchmark) :
    torchBlock s st2 = .ok (st2, tr) := by
  obtain ⟨g, pyr, npr, tor, cur, cua, cdet, cbm, tfr, env, tIm, tCu, tSe, fIm, fSe, nIm, nSe, jIm⟩ := st
  simp only at hIm hSe hCu
  rcases tIm with _ | e
  · rcases tSe with _ | e2
    · cases tCu <;> simp [torchBlock] at h <;> obtain ⟨rfl, rfl⟩ := h <;>
        simp only at m1 m2 m3 m4 m5 <;>
        obtain ⟨g2, pyr2, npr2, tor2, cur2, cua2, cdet2, cbm2, tfr2, env2, tIm2, tCu2, tSe2,
                fIm2, fSe2, nIm2, nSe2, jIm2⟩ := st2 <;>
        simp_all [torchBlock]
    · rcases e2 with _ | k <;> simp [torchBlock] at h
      obtain ⟨rfl, rfl⟩ := h
      obtain ⟨g2, pyr2, npr2, tor2, cur2, cua2, cdet2, cbm2, tfr2, env2, tIm2, tCu2, tSe2,
              fIm2, fSe2, nIm2, nSe2, jIm2⟩ := st2
      simp_all [torchBlock]
  · rcases e with _ | k <;> simp [torchBlock] at h
    obtain ⟨rfl, rfl⟩ := h
    obtain ⟨g2, pyr2, npr2, tor2, cur2, cua2, cdet2, cbm2, tfr2, env2, tIm2, tCu2, tSe2,
            fIm2, fSe2, nIm2, nSe2, jIm2⟩ := st2
    simp_all [torchBlock]

/-- `tfBlock` only writes `tfRng`: every other field of the result
equals the input's. -/
theorem tfBlock_frame (s : Int) {st st' : PyState} {tr : List Action}
    (h : tfBlock s st = .ok (st', tr)) :
    st'.randomSeedGlobal = st.randomSeedGlobal ∧ st'.pyRng = st.pyRng ∧
    st'.npRng = st.npRng ∧ st'.torchRng = st.torchRng ∧ st'.cudaRng = st.cudaRng ∧
    st'.cudaRngAll = st.cudaRngAll ∧ st'.cudnnDeterministic = st.cudnnDeterministic ∧
    st'.cudnnBenchmark = st.cudnnBenchmark ∧ st'.environ = st.environ ∧
    st'.torchImport = st.torchImport ∧ st'.torchCudaAvailable = st.torchCudaAvailable ∧
    st'.torchSeedErr = st.torchSeedErr ∧ st'.tfImport = st.tfImport ∧
    st'.tfSeedErr = st.tfSeedErr ∧ st'.npImport = st.npImport ∧
    st'.npSeedErr = st.npSeedErr ∧ st'.jaxImport = st.jaxImport := by
  obtain ⟨g, pyr, npr, tor, cur, cua, cdet, cbm, tfr, env, tIm, tCu, tSe, fIm, fSe, nIm, nSe, jIm⟩ := st
  rcases fIm with _ | e
  · rcases fSe with _ | e2
    · simp [tfBlock] at h
      obtain ⟨rfl, rfl⟩ := h
      exact ⟨rfl, rfl, rfl, rfl, rfl, rfl, rfl, rfl, rfl, rfl, rfl, rfl, rfl, rfl, rfl, rfl, rfl⟩
    · rcases e2 with _ | k <;> simp [tfBlock] at h
      obtain ⟨rfl, rfl⟩ := h
      exact ⟨rfl, rfl, rfl, rfl, rfl, rfl, rfl, rfl, rfl, rfl, rfl, rfl, rfl, rfl, rfl, rfl, rfl⟩
  · rcases e with _ | k <;> simp [tfBlock] at h
    obtain ⟨rfl, rfl⟩ := h
    exact ⟨rfl, rfl, rfl, rfl, rfl, rfl, rfl, rfl, rfl, rfl, rfl, rfl, rfl, rfl, rfl, rfl, rfl⟩

/-- Analogue of `torchBlock_stable` for the TensorFlow block. -/
theorem tfBlock_stable (s : Int) {st st' : PyState} {tr : List Action}
    (h : tfBlock s st = .ok (st', tr)) (st2 : PyState)
    (hIm : st2.tfImport = st.tfImport) (hSe : st2.tfSeedErr = st.tfSeedErr)
    (m1 : st2.tfRng = st'.tfRng) :
    tfBlock s st2 = .ok (st2, tr) := by
  obtain ⟨g, pyr, npr, tor, cur, cua, cdet, cbm, tfr, env, tIm, tCu, tSe, fIm, fSe, nIm, nSe, jIm⟩ := st
  simp only at hIm hSe
  rcases fIm with _ | e
  · rcases fSe with _ | e2
    · simp [tfBlock] at h
      obtain ⟨rfl, rfl⟩ := h
      obtain ⟨g2, pyr2, npr2, tor2, cur2, cua2, cdet2, cbm2, tfr2, env2, tIm2, tCu2, tSe2,
              fIm2, fSe2, nIm2, nSe2, jIm2⟩ := st2
      simp_all [tfBlock]
    · rcases e2 with _ | k <;> simp [tfBlock] at h
      obtain ⟨rfl, rfl⟩ := h
      obtain ⟨g2, pyr2, npr2, tor2, cur2, cua2, cdet2, cbm2, tfr2, env2, tIm2, tCu2, tSe2,
              fIm2, fSe2, nIm2, nSe2, jIm2⟩ := st2
      simp_all [tfBlock]
  · rcases e with _ | k <;> simp [tfBlock] at h
    obtain ⟨rfl, rfl⟩ := h
    obtain ⟨g2, pyr2, npr2, tor2, cur2, cua2, cdet2, cbm2, tfr2, env2, tIm2, tCu2, tSe2,
            fIm2, fSe2, nIm2, nSe2, jIm2⟩ := st2
    simp_all [tfBlock]

/-- A successful `set_seed` is idempotent: running it again from the
state it produced returns that very state (and the same trace). -/
theorem set_seed_idem (s : Int) {st st' : PyState} {tr : List Action}
    (h : set_seed s st = .ok (st', tr)) : set_seed s st' = .ok (st', tr) := by
  obtain ⟨g, pyr, npr, tor, cur, cua, cdet, cbm, tfr, env, tIm, tCu, tSe, fIm, fSe, nIm, nSe, jIm⟩ := st
  rcases nSe with _ | e
  · simp only [set_seed] at h
    split at h
    · simp at h
    · rename_i st4 tr4 heq1
      split at h
      · simp at h
      · rename_i st5 tr5 heq2
        simp only [Except.ok.injEq, Prod.mk.injEq] at h
        obtain ⟨rfl, rfl⟩ := h
        have ftb := torchBlock_frame s heq1
        have ftf := tfBlock_frame s heq2
        obtain ⟨G2, PY2, NP2, TO2, CU2, CA2, CD2, CB2, TF2, EN2, TI2, TC2, TS2, FI2, FS2,
                NI2, NS2, JI2⟩ := st5
        obtain ⟨f01, f02, f03, f04, f05, f06, f07, f08, f09, f10, f11, f12, f13, f14, f15,
                f16, f17⟩ := ftf
        obtain ⟨t01, t02, t03, t04, t05, t06, t07, t08, t09, t10, t11, t12, t13⟩ := ftb
        have hpy : PY2 = RngState.seeded s := f02.trans t02
        have hnp : NP2 = RngState.seeded s := f03.trans t03
        have henv : EN2 = envSet env "PYTHONHASHSEED" (toString s) := f09.trans t05
        have hns : NS2 = none := f16.trans t12
        have hti : TI2 = tIm := f10.trans t06
        have htc : TC2 = tCu := f11.trans t07
        have hts : TS2 = tSe := f12.trans t08
        have hfi : FI2 = fIm := f13.trans t09
        have hfs : FS2 = fSe := f14.trans t10
        subst hpy hnp henv hns hti htc hts hfi hfs
        have htorch2 := torchBlock_stable s heq1 ⟨G2, RngState.seeded s,
          RngState.seeded s, TO2, CU2, CA2, CD2, CB2, TF2,
          envSet env "PYTHONHASHSEED" (toString s), TI2, TC2, TS2, FI2, FS2, NI2, none, JI2⟩
          rfl rfl rfl f04 f05 f06 f07 f08
        have htf2 := tfBlock_stable s heq2 ⟨G2, RngState.seeded s,
          RngState.seeded s, TO2, CU2, CA2, CD2, CB2, TF2,
          envSet env "PYTHONHASHSEED" (toString s), TI2, TC2, TS2, FI2, FS2, NI2, none, JI2⟩
          t09.symm t10.symm rfl
        simp only [set_seed, envSet_envSet, htorch2, htf2]
  · simp [set_seed] at h

/-- `_set_numpy_seed` only writes `npRng`. -/
theorem _set_numpy_seed_frame (s : Int) {st st' : PyState} {tr : List Action}
    {out : List String} (h : _set_numpy_seed s st = .ok (st', tr, out)) :
    st'.randomSeedGlobal = st.randomSeedGlobal ∧ st'.pyRng = st.pyRng ∧
    st'.torchRng = st.torchRng ∧ st'.cudaRng = st.cudaRng ∧ st'.cudaRngAll = st.cudaRngAll ∧
    st'.cudnnDeterministic = st.cudnnDeterministic ∧ st'.cudnnBenchmark = st.cudnnBenchmark ∧
    st'.tfRng = st.tfRng ∧ st'.environ = st.environ ∧ st'.torchImport = st.torchImport ∧
    st'.torchCudaAvailable = st.torchCudaAvailable ∧ st'.torchSeedErr = st.torchSeedErr ∧
    st'.tfImport = st.tfImport ∧ st'.tfSeedErr = st.tfSeedErr ∧ st'.npImport = st.npImport ∧
    st'.npSeedErr = st.npSeedErr ∧ st'.jaxImport = st.jaxImport := by
  obtain ⟨g, pyr, npr, tor, cur, cua, cdet, cbm, tfr, env, tIm, tCu, tSe, fIm, fSe, nIm, nSe, jIm⟩ := st
  rcases nIm with _ | e
  · rcases nSe with _ | e2
    · simp [_set_numpy_seed] at h
      obtain ⟨rfl, rfl, rfl⟩ := h
      exact ⟨rfl, rfl, rfl, rfl, rfl, rfl, rfl, rfl, rfl, rfl, rfl, rfl, rfl, rfl, rfl, rfl, rfl⟩
    · rcases e2 with _ | k <;> simp [_set_numpy_seed] at h
      obtain ⟨rfl, rfl, rfl⟩ := h
      exact ⟨rfl, rfl, rfl, rfl, rfl, rfl, rfl, rfl, rfl, rfl, rfl, rfl, rfl, rfl, rfl, rfl, rfl⟩
  · rcases e with _ | k <;> simp [_set_numpy_seed] at h
    obtain ⟨rfl, rfl, rfl⟩ := h
    exact ⟨rfl, rfl, rfl, rfl, rfl, rfl, rfl, rfl, rfl, rfl, rfl, rfl, rfl, rfl, rfl, rfl, rfl⟩

/-- Re-running `_set_numpy_seed` on a state with the same NumPy
configuration and the first run's `npRng` is a no-op. -/
theorem _set_numpy_seed_stable (s : Int) {st st' : PyState} {tr : List Action}
    {out : List String} (h : _set_numpy_seed s st = .ok (st', tr, out)) (st2 : PyState)
    (hIm : st2.npImport = st.npImport) (hSe : st2.npSeedErr = st.npSeedErr)
    (m1 : st2.npRng = st'.npRng) :
    _set_numpy_seed s st2 = .ok (st2, tr, out) := by
  obtain ⟨g, pyr, npr, tor, cur, cua, cdet, cbm, tfr, env, tIm, tCu, tSe, fIm, fSe, nIm, nSe, jIm⟩ := st
  simp only at hIm hSe
  rcases nIm with _ | e
  · rcases nSe with _ | e2
    · simp [_set_numpy_seed] at h
      obtain ⟨rfl, rfl, rfl⟩ := h
      obtain ⟨g2, pyr2, npr2, tor2, cur2, cua2, cdet2, cbm2, tfr2, env2, tIm2, tCu2, tSe2,
              fIm2, fSe2, nIm2, nSe2, jIm2⟩ := st2
      simp_all [_set_numpy_seed]
    · rcases e2 with _ | k <;> simp [_set_numpy_seed] at h
      obtain ⟨rfl, rfl, rfl⟩ := h
      obtain ⟨g2, pyr2, npr2, tor2, cur2, cua2, cdet2, cbm2, tfr2, env2, tIm2, tCu2, tSe2,
              fIm2, fSe2, nIm2, nSe2, jIm2⟩ := st2
      simp_all [_set_numpy_seed]
  · rcases e with _ | k <;> simp [_set_numpy_seed] at h
    obtain ⟨rfl, rfl, rfl⟩ := h
    obtain ⟨g2, pyr2, npr2, tor2, cur2, cua2, cdet2, cbm2, tfr2, env2, tIm2, tCu2, tSe2,
            fIm2, fSe2, nIm2, nSe2, jIm2⟩ := st2
    simp_all [_set_numpy_seed]

/-- `_set_pytorch_seed` only writes the five PyTorch-owned fields. -/
theorem _set_pytorch_seed_frame (s : Int) {st st' : PyState} {tr : List Action}
    {out : List String} (h : _set_pytorch_seed s st = .ok (st', tr, out)) :
    st'.randomSeedGlobal = st.randomSeedGlobal ∧ st'.pyRng = st.pyRng ∧
    st'.npRng = st.npRng ∧ st'.tfRng = st.tfRng ∧ st'.environ = st.environ ∧
    st'.torchImport = st.torchImport ∧ st'.torchCudaAvailable = st.torchCudaAvailable ∧
    st'.torchSeedErr = st.torchSeedErr ∧ st'.tfImport = st.tfImport ∧
    st'.tfSeedErr = st.tfSeedErr ∧ st'.npImport = st.npImport ∧
    st'.npSeedErr = st.npSeedErr ∧ st'.jaxImport = st.jaxImport := by
  obtain ⟨g, pyr, npr, tor, cur, cua, cdet, cbm, tfr, env, tIm, tCu, tSe, fIm, fSe, nIm, nSe, jIm⟩ := st
  rcases tIm with _ | e
  · rcases tSe with _ | e2
    · cases tCu <;> simp [_set_pytorch_seed] at h <;> obtain ⟨rfl, rfl, rfl⟩ := h <;>
        exact ⟨rfl, rfl, rfl, rfl, rfl, rfl, rfl, rfl, rfl, rfl, rfl, rfl, rfl⟩
    · rcases e2 with _ | k <;> simp [_set_pytorch_seed] at h
      obtain ⟨rfl, rfl, rfl⟩ := h
      exact ⟨rfl, rfl, rfl, rfl, rfl, rfl, rfl, rfl, rfl, rfl, rfl, rfl, rfl⟩
  · rcases e with _ | k <;> simp [_set_pytorch_seed] at h
    obtain ⟨rfl, rfl, rfl⟩ := h
    exact ⟨rfl, rfl, rfl, rfl, rfl, rfl, rfl, rfl, rfl, rfl, rfl, rfl, rfl⟩

/-- Analogue of `torchBlock_stable` for `_set_pytorch_seed`. -/
theorem _set_pytorch_seed_stable (s : Int) {st st' : PyState} {tr : List Action}
    {out : List String} (h : _set_pytorch_seed s st = .ok (st', tr, out)) (st2 : PyState)
    (hIm : st2.torchImport = st.torchImport) (hSe : st2.torchSeedErr = st.torchSeedErr)
    (hCu : st2.torchCudaAvailable = st.torchCudaAvailable)
    (m1 : st2.torchRng = st'.torchRng) (m2 : st2.cudaRng = st'.cudaRng)
    (m3 : st2.cudaRngAll = st'.cudaRngAll)
    (m4 : st2.cudnnDeterministic = st'.cudnnDeterministic)
    (m5 : st2.cudnnBenchmark = st'.cudnnBenchmark) :
    _set_pytorch_seed s st2 = .ok (st2, tr, out) := by
  obtain ⟨g, pyr, npr, tor, cur, cua, cdet, cbm, tfr, env, tIm, tCu, tSe, fIm, fSe, nIm, nSe, jIm⟩ := st
  simp only at hIm hSe hCu
  rcases tIm with _ | e
  · rcases tSe with _ | e2
    · cases tCu <;> simp [_set_pytorch_seed] at h <;> obtain ⟨rfl, rfl, rfl⟩ := h <;>
        simp only at m1 m2 m3 m4 m5 <;>
        obtain ⟨g2, pyr2, npr2, tor2, cur2, cua2, cdet2, cbm2, tfr2, env2, tIm2, tCu2, tSe2,
                fIm2, fSe2, nIm2, nSe2, jIm2⟩ := st2 <;>
        simp_all [_set_pytorch_seed]
    · rcases e2 with _ | k <;> simp [_set_pytorch_seed] at h
      obtain ⟨rfl, rfl, rfl⟩ := h
      obtain ⟨g2, pyr2, npr2, tor2, cur2, cua2, cdet2, cbm2, tfr2, env2, tIm2, tCu2, tSe2,
              fIm2, fSe2, nIm2, nSe2, jIm2⟩ := st2
      simp_all [_set_pytorch_seed]
  · rcases e with _ | k <;> simp [_set_pytorch_seed] at h
    obtain ⟨rfl, rfl, rfl⟩ := h
    obtain ⟨g2, pyr2, npr2, tor2, cur2, cua2, cdet2, cbm2, tfr2, env2, tIm2, tCu2, tSe2,
            fIm2, fSe2, nIm2, nSe2, jIm2⟩ := st2
    simp_all [_set_pytorch_seed]

/-- `_set_tensorflow_seed` only writes `tfRng`. -/
theorem _set_tensorflow_seed_frame (s : Int) {st st' : PyState} {tr : List Action}
    {out : List String} (h : _set_tensorflow_seed s st = .ok (st', tr, out)) :
    st'.randomSeedGlobal = st.randomSeedGlobal ∧ st'.pyRng = st.pyRng ∧
    st'.npRng = st.npRng ∧ st'.torchRng = st.torchRng ∧ st'.cudaRng = st.cudaRng ∧
    st'.cudaRngAll = st.cudaRngAll ∧ st'.cudnnDeterministic = st.cudnnDeterministic ∧
    st'.cudnnBenchmark = st.cudnnBenchmark ∧ st'.environ = st.environ ∧
    st'.torchImport = st.torchImport ∧ st'.torchCudaAvailable = st.torchCudaAvailable ∧
    st'.torchSeedErr = st.torchSeedErr ∧ st'.tfImport = st.tfImport ∧
    st'.tfSeedErr = st.tfSeedErr ∧ st'.npImport = st.npImport ∧
    st'.npSeedErr = st.npSeedErr ∧ st'.jaxImport = st.jaxImport := by
  obtain ⟨g, pyr, npr, tor, cur, cua, cdet, cbm, tfr, env, tIm, tCu, tSe, fIm, fSe, nIm, nSe, jIm⟩ := st
  rcases fIm with _ | e
  · rcases fSe with _ | e2
    · simp [_set_tensorflow_seed] at h
      obtain ⟨rfl, rfl, rfl⟩ := h
      exact ⟨rfl, rfl, rfl, rfl, rfl, rfl, rfl, rfl, rfl, rfl, rfl, rfl, rfl, rfl, rfl, rfl, rfl⟩
    · rcases e2 with _ | k <;> simp [_set_tensorflow_seed] at h
      obtain ⟨rfl, rfl, rfl⟩ := h
      exact ⟨rfl, rfl, rfl, rfl, rfl, rfl, rfl, rfl, rfl, rfl, rfl, rfl, rfl, rfl, rfl, rfl, rfl⟩
  · rcases e with _ | k <;> simp [_set_tensorflow_seed] at h
    obtain ⟨rfl, rfl, rfl⟩ := h
    exact ⟨rfl, rfl, rfl, rfl, rfl, rfl, rfl, rfl, rfl, rfl, rfl, rfl, rfl, rfl, rfl, rfl, rfl⟩

/-- Analogue of `tfBlock_stable` for `_set_tensorflow_seed`. -/
theorem _set_tensorflow_seed_stable (s : Int) {st st' : PyState} {tr : List Action}
    {out : List String} (h : _set_tensorflow_seed s st = .ok (st', tr, out)) (st2 : PyState)
    (hIm : st2.tfImport = st.tfImport) (hSe : st2.tfSeedErr = st.tfSeedErr)
    (m1 : st2.tfRng = st'.tfRng) :
    _set_tensorflow_seed s st2 = .ok (st2, tr, out) := by
  obtain ⟨g, pyr, npr, tor, cur, cua, cdet, cbm, tfr, env, tIm, tCu, tSe, fIm, fSe, nIm, nSe, jIm⟩ := st
  simp only at hIm hSe
  rcases fIm with _ | e
  · rcases fSe with _ | e2
    · simp [_set_tensorflow_seed] at h
      obtain ⟨rfl, rfl, rfl⟩ := h
      obtain ⟨g2, pyr2, npr2, tor2, cur2, cua2, cdet2, cbm2, tfr2, env2, tIm2, tCu2, tSe2,
              fIm2, fSe2, nIm2, nSe2, jIm2⟩ := st2
      simp_all [_set_tensorflow_seed]
    · rcases e2 with _ | k <;> simp [_set_tensorflow_seed] at h
      obtain ⟨rfl, rfl, rfl⟩ := h
      obtain ⟨g2, pyr2, npr2, tor2, cur2, cua2, cdet2, cbm2, tfr2, env2, tIm2, tCu2, tSe2,
              fIm2, fSe2, nIm2, nSe2, jIm2⟩ := st2
      simp_all [_set_tensorflow_seed]
  · rcases e with _ | k <;> simp [_set_tensorflow_seed] at h
    obtain ⟨rfl, rfl, rfl⟩ := h
    obtain ⟨g2, pyr2, npr2, tor2, cur2, cua2, cdet2, cbm2, tfr2, env2, tIm2, tCu2, tSe2,
            fIm2, fSe2, nIm2, nSe2, jIm2⟩ := st2
    simp_all [_set_tensorflow_seed]

/-- `_set_jax_seed` never changes the state. -/
theorem _set_jax_seed_frame (s : Int) {st st' : PyState} {tr : List Action}
    {out : List String} (h : _set_jax_seed s st = .ok (st', tr, out)) : st' = st := by
  obtain ⟨g, pyr, npr, tor, cur, cua, cdet, cbm, tfr, env, tIm, tCu, tSe, fIm, fSe, nIm, nSe, jIm⟩ := st
  rcases jIm with _ | e
  · simp [_set_jax_seed] at h
    exact h.1.symm
  · rcases e with _ | k <;> simp [_set_jax_seed] at h
    exact h.1.symm

/-- Re-running `_set_jax_seed` on a state with the same JAX
configuration is a no-op with the same outputs. -/
theorem _set_jax_seed_stable (s : Int) {st st' : PyState} {tr : List Action}
    {out : List String} (h : _set_jax_seed s st = .ok (st', tr, out)) (st2 : PyState)
    (hIm : st2.jaxImport = st.jaxImport) :
    _set_jax_seed s st2 = .ok (st2, tr, out) := by
  obtain ⟨g, pyr, npr, tor, cur, cua, cdet, cbm, tfr, env, tIm, tCu, tSe, fIm, fSe, nIm, nSe, jIm⟩ := st
  simp only at hIm
  rcases jIm with _ | e
  · simp [_set_jax_seed] at h
    obtain ⟨g2, pyr2, npr2, tor2, cur2, cua2, cdet2, cbm2, tfr2, env2, tIm2, tCu2, tSe2,
            fIm2, fSe2, nIm2, nSe2, jIm2⟩ := st2
    simp_all [_set_jax_seed]
  · rcases e with _ | k <;> simp [_set_jax_seed] at h
    obtain ⟨g2, pyr2, npr2, tor2, cur2, cua2, cdet2, cbm2, tfr2, env2, tIm2, tCu2, tSe2,
            fIm2, fSe2, nIm2, nSe2, jIm2⟩ := st2
    simp_all [_set_jax_seed]

/-- A successful `set_all_seeds` is idempotent on the process state:
running it again from the state it produced returns that very state,
with the same action trace and the same printed lines. -/
theorem set_all_seeds_idem (s : Int) {st st' : PyState} {tr : List Action}
    {out : List String} (h : set_all_seeds s st = .ok (st', tr, out)) :
    set_all_seeds s st' = .ok (st', tr, out) := by
  obtain ⟨g, pyr, npr, tor, cur, cua, cdet, cbm, tfr, env, tIm, tCu, tSe, fIm, fSe, nIm, nSe, jIm⟩ := st
  simp only [set_all_seeds] at h
  split at h
  · simp at h
  · rename_i st3 tr3 out3 heq1
    split at h
    · simp at h
    · rename_i st4 tr4 out4 heq2
      split at h
      · simp at h
      · rename_i st5 tr5 out5 heq3
        split at h
        · simp at h
        · rename_i st6 tr6 out6 heq4
          simp only [Except.ok.injEq, Prod.mk.injEq] at h
          obtain ⟨rfl, rfl, rfl⟩ := h
          have fj := _set_jax_seed_frame s heq4
          subst fj
          obtain ⟨a01, a02, a03, a04, a05, a06, a07, a08, a09, a10, a11, a12, a13, a14,
                  a15, a16, a17⟩ := _set_numpy_seed_frame s heq1
          obtain ⟨b01, b02, b03, b04, b05, b06, b07, b08, b09, b10, b11, b12, b13⟩ :=
            _set_pytorch_seed_frame s heq2
          obtain ⟨G2, PY2, NP2, TO2, CU2, CA2, CD2, CB2, TF2, EN2, TI2, TC2, TS2, FI2, FS2,
                  NI2, NS2, JI2⟩ := st6
          obtain ⟨c01, c02, c03, c04, c05, c06, c07, c08, c09, c10, c11, c12, c13, c14,
                  c15, c16, c17⟩ := _set_tensorflow_seed_frame s heq3
          have hpy : PY2 = RngState.seeded s := c02.trans (b02.trans a02)
          have henv : EN2 = envSet env "PYTHONHASHSEED" (toString s) :=
            c09.trans (b05.trans a09)
          subst hpy henv
          have hnp2 := _set_numpy_seed_stable s heq1 ⟨G2, RngState.seeded s, NP2, TO2,
            CU2, CA2, CD2, CB2, TF2, envSet env "PYTHONHASHSEED" (toString s), TI2, TC2,
            TS2, FI2, FS2, NI2, NS2, JI2⟩
            (c15.trans (b11.trans a15)) (c16.trans (b12.trans a16)) (c03.trans b03)
          have htorch2 := _set_pytorch_seed_stable s heq2 ⟨G2, RngState.seeded s, NP2, TO2,
            CU2, CA2, CD2, CB2, TF2, envSet env "PYTHONHASHSEED" (toString s), TI2, TC2,
            TS2, FI2, FS2, NI2, NS2, JI2⟩
            (c10.trans b06) (c12.trans b08) (c11.trans b07) c04 c05 c06 c07 c08
          have htf2 := _set_tensorflow_seed_stable s heq3 ⟨G2, RngState.seeded s, NP2, TO2,
            CU2, CA2, CD2, CB2, TF2, envSet env "PYTHONHASHSEED" (toString s), TI2, TC2,
            TS2, FI2, FS2, NI2, NS2, JI2⟩ c13 c14 rfl
          have hjax2 := _set_jax_seed_stable s heq4 ⟨G2, RngState.seeded s, NP2, TO2,
            CU2, CA2, CD2, CB2, TF2, envSet env "PYTHONHASHSEED" (toString s), TI2, TC2,
            TS2, FI2, FS2, NI2, NS2, JI2⟩ rfl
          simp only [set_all_seeds, envSet_envSet, hnp2, htorch2, htf2, hjax2]

/-- A successful `set_seed` leaves the Python and NumPy generators in
the seeded state and never touches the `RANDOM_SEED` global. -/
theorem set_seed_fields (s : Int) {st st' : PyState} {tr : List Action}
    (h : set_seed s st = .ok (st', tr)) :
    st'.pyRng = RngState.seeded s ∧ st'.npRng = RngState.seeded s ∧
    st'.randomSeedGlobal = st.randomSeedGlobal := by
  obtain ⟨g, pyr, npr, tor, cur, cua, cdet, cbm, tfr, env, tIm, tCu, tSe, fIm, fSe, nIm, nSe, jIm⟩ := st
  rcases nSe with _ | e
  · simp only [set_seed] at h
    split at h
    · simp at h
    · rename_i st4 tr4 heq1
      split at h
      · simp at h
      · rename_i st5 tr5 heq2
        simp only [Except.ok.injEq, Prod.mk.injEq] at h
        obtain ⟨rfl, rfl⟩ := h
        obtain ⟨t01, t02, t03, t04, t05, t06, t07, t08, t09, t10, t11, t12, t13⟩ :=
          torchBlock_frame s heq1
        obtain ⟨f01, f02, f03, f04, f05, f06, f07, f08, f09, f10, f11, f12, f13, f14,
                f15, f16, f17⟩ := tfBlock_frame s heq2
        exact ⟨f02.trans t02, f03.trans t03, f01.trans t01⟩
  · simp [set_seed] at h

/-- First-run outcome of `set_seed 5` from `initState`, used as a
concrete instance below. -/
def wSt1 : PyState :=
  match set_seed 5 initState with
  | .ok p => p.1
  | .error _ => initState

/-- Trace of `set_seed 5` from `initState`. -/
def wTr1 : List Action :=
  match set_seed 5 initState with
  | .ok p => p.2
  | .error _ => []

/-- First-run outcome of `set_all_seeds 5` from `initState`. -/
def wSt2 : PyState :=
  match set_all_seeds 5 initState with
  | .ok p => p.1
  | .error _ => initState

/-- Trace of `set_all_seeds 5` from `initState`. -/
def wTr2 : List Action :=
  match set_all_seeds 5 initState with
  | .ok p => p.2.1
  | .error _ => []

/-- Printed lines of `set_all_seeds 5` from `initState`. -/
def wOut2 : List String :=
  match set_all_seeds 5 initState with
  | .ok p => p.2.2
  | .error _ => []

/-- C1: Seed broadcasting is idempotent.  For every integer seed `s`,
calling the broadcaster (`set_seed` or `set_all_seeds`) a second time
with `s` from the state the first call produced returns exactly that
state again (so the language-level generator, seeded to `s` by the
first call, is left in the same observable state as after one call). -/
theorem seed_broadcast_idempotent (s : Int) (st st' : PyState) (tr : List Action) :
    (set_seed s st = .ok (st', tr) → set_seed s st' = .ok (st', tr)) ∧
    (∀ out, set_all_seeds s st = .ok (st', tr, out) →
      set_all_seeds s st' = .ok (st', tr, out)) ∧
    (set_seed s st = .ok (st', tr) → st'.pyRng = RngState.seeded s) :=
  ⟨fun h => set_seed_idem s h,
   fun _out h => set_all_seeds_idem s h,
   fun h => (set_seed_fields s h).1⟩

/-- Witness for C1 at seed 5 from `initState`, for both broadcasters. -/
theorem seed_broadcast_idempotent_witness :
    set_seed 5 wSt1 = .ok (wSt1, wTr1) ∧
    set_all_seeds 5 wSt2 = .ok (wSt2, wTr2, wOut2) := by
  have h1 : set_seed 5 initState = .ok (wSt1, wTr1) := rfl
  have h2 : set_all_seeds 5 initState = .ok (wSt2, wTr2, wOut2) := rfl
  exact ⟨(seed_broadcast_idempotent 5 initState wSt1 wTr1).1 h1,
         (seed_broadcast_idempotent 5 initState wSt2 wTr2).2.1 wOut2 h2⟩

/-- A backend is absent (its import raises `ImportError`) or present
and healthy (import succeeds and its seeding call does not raise). -/
abbrev absentOrHealthy (imp se : Option PyErr) : Prop :=
  imp = some PyErr.importError ∨ (imp = none ∧ se = none)

/-- A backend raises a non-`ImportError` exception, either from
its module load or — with that succeeding — from its seeding call. -/
abbrev raisesOther (imp se : Option PyErr) (k : Nat) : Prop :=
  imp = some (PyErr.otherError k) ∨ (imp = none ∧ se = some (PyErr.otherError k))

/-- `initState` with the two ML-backend modules of `set_seed` absent
(their imports raise `ImportError`). -/
def stMLAbsent : PyState :=
  { initState with torchImport := some PyErr.importError,
                   tfImport := some PyErr.importError }

/-- Pure-language mode: every optional backend of `set_all_seeds`
(NumPy, PyTorch, TensorFlow, JAX) is absent. -/
def stPureLang : PyState :=
  { stMLAbsent with npImport := some PyErr.importError,
                    jaxImport := some PyErr.importError }

/-- `initState` with `np.random.seed` raising a non-`ImportError`. -/
def stNpBroken : PyState :=
  { initState with npSeedErr := some (PyErr.otherError 3) }

/-- `initState` with PyTorch present but its seeding call raising a
non-`ImportError` exception. -/
def stTorchBroken : PyState :=
  { initState with torchSeedErr := some (PyErr.otherError 3) }

/-- `initState` with `import tensorflow` raising a non-`ImportError`. -/
def stTfImportBroken : PyState :=
  { initState with tfImport := some (PyErr.otherError 3) }

/-- `initState` with `tf.random.set_seed` raising a non-`ImportError`. -/
def stTfSeedBroken : PyState :=
  { initState with tfSeedErr := some (PyErr.otherError 3) }

/-- `initState` with `import jax` raising a non-`ImportError`. -/
def stJaxBroken : PyState :=
  { initState with jaxImport := some (PyErr.otherError 3) }

/-- `set_seed` under any mix of absent and present-healthy optional
backends: returns normally, seeds Python, NumPy and every present
backend, and leaves each absent backend's generator untouched. -/
theorem set_seed_isolation (s : Int) (st : PyState)
    (hnp : st.npSeedErr = none)
    (htorch : absentOrHealthy st.torchImport st.torchSeedErr)
    (htf : absentOrHealthy st.tfImport st.tfSeedErr) :
    ∃ st' tr, set_seed s st = .ok (st', tr) ∧
      st'.pyRng = RngState.seeded s ∧ st'.npRng = RngState.seeded s ∧
      (st.torchImport = some PyErr.importError → st'.torchRng = st.torchRng) ∧
      (st.torchImport = none → st'.torchRng = RngState.seeded s) ∧
      (st.tfImport = some PyErr.importError → st'.tfRng = st.tfRng) ∧
      (st.tfImport = none → st'.tfRng = RngState.seeded s) := by
  obtain ⟨g, pyr, npr, tor, cur, cua, cdet, cbm, tfr, env, tIm, tCu, tSe, fIm, fSe, nIm, nSe, jIm⟩ := st
  simp only at hnp
  subst hnp
  rcases htorch with h | ⟨h1, h2⟩
  · simp only at h
    subst h
    rcases htf with h' | ⟨h1', h2'⟩
    · simp only at h'
      subst h'
      cases tCu <;> refine ⟨_, _, rfl, rfl, rfl, ?_, ?_, ?_, ?_⟩ <;> intro hx <;>
        first | rfl | simp at hx
    · simp only at h1' h2'
      subst h1' h2'
      cases tCu <;> refine ⟨_, _, rfl, rfl, rfl, ?_, ?_, ?_, ?_⟩ <;> intro hx <;>
        first | rfl | simp at hx
  · simp only at h1 h2
    subst h1 h2
    rcases htf with h' | ⟨h1', h2'⟩
    · simp only at h'
      subst h'
      cases tCu <;> refine ⟨_, _, rfl, rfl, rfl, ?_, ?_, ?_, ?_⟩ <;> intro hx <;>
        first | rfl | simp at hx
    · simp only at h1' h2'
      subst h1' h2'
      cases tCu <;> refine ⟨_, _, rfl, rfl, rfl, ?_, ?_, ?_, ?_⟩ <;> intro hx <;>
        first | rfl | simp at hx

/-- In `set_seed`, a non-`ImportError` raised by `np.random.seed`, by
the PyTorch block or by the TensorFlow block propagates to the
caller. -/
theorem set_seed_propagates (s : Int) (st : PyState) (k : Nat) :
    (st.npSeedErr = some (PyErr.otherError k) →
      set_seed s st = .error (PyErr.otherError k)) ∧
    (st.npSeedErr = none → raisesOther st.torchImport st.torchSeedErr k →
      set_seed s st = .error (PyErr.otherError k)) ∧
    (st.npSeedErr = none → absentOrHealthy st.torchImport st.torchSeedErr →
      raisesOther st.tfImport st.tfSeedErr k →
      set_seed s st = .error (PyErr.otherError k)) := by
  obtain ⟨g, pyr, npr, tor, cur, cua, cdet, cbm, tfr, env, tIm, tCu, tSe, fIm, fSe, nIm, nSe, jIm⟩ := st
  refine ⟨fun h => ?_, fun h hr => ?_, fun h ho hr => ?_⟩
  · simp only at h
    subst h
    rfl
  · simp only at h
    subst h
    rcases hr with h2 | ⟨h2, h3⟩
    · simp only at h2
      subst h2
      rfl
    · simp only at h2 h3
      subst h2 h3
      rfl
  · simp only at h
    subst h
    rcases ho with h2 | ⟨h2, h3⟩ <;> rcases hr with h4 | ⟨h4, h5⟩ <;>
      simp only at * <;> subst_vars <;> cases tCu <;> rfl

/-- `set_all_seeds` under any mix of absent and present-healthy
backends (including pure-language mode with all four absent): returns
normally, seeds the Python generator and every present backend, and
leaves each absent backend's generator untouched. -/
theorem set_all_seeds_isolation (s : Int) (st : PyState)
    (hnp : absentOrHealthy st.npImport st.npSeedErr)
    (htorch : absentOrHealthy st.torchImport st.torchSeedErr)
    (htf : absentOrHealthy st.tfImport st.tfSeedErr)
    (hjax : st.jaxImport = some PyErr.importError ∨ st.jaxImport = none) :
    ∃ st' tr out, set_all_seeds s st = .ok (st', tr, out) ∧
      st'.pyRng = RngState.seeded s ∧
      (st.npImport = some PyErr.importError → st'.npRng = st.npRng) ∧
      (st.npImport = none → st'.npRng = RngState.seeded s) ∧
      (st.torchImport = some PyErr.importError → st'.torchRng = st.torchRng) ∧
      (st.torchImport = none → st'.torchRng = RngState.seeded s) ∧
      (st.tfImport = some PyErr.importError → st'.tfRng = st.tfRng) ∧
      (st.tfImport = none → st'.tfRng = RngState.seeded s) := by
  obtain ⟨g, pyr, npr, tor, cur, cua, cdet, cbm, tfr, env, tIm, tCu, tSe, fIm, fSe, nIm, nSe, jIm⟩ := st
  rcases hnp with hn | ⟨hn1, hn2⟩ <;>
  rcases htorch with ht | ⟨ht1, ht2⟩ <;>
  rcases htf with hf | ⟨hf1, hf2⟩ <;>
  rcases hjax with hj | hj <;>
  simp only at * <;> subst_vars <;> cases tCu <;>
  refine ⟨_, _, _, rfl, rfl, ?_, ?_, ?_, ?_, ?_, ?_⟩ <;> intro hx <;>
    first | rfl | simp at hx

/-- In `set_all_seeds`, a non-`ImportError` raised by any backend
helper propagates to the caller. -/
theorem set_all_seeds_propagates (s : Int) (st : PyState) (k : Nat) :
    (raisesOther st.npImport st.npSeedErr k →
      set_all_seeds s st = .error (PyErr.otherError k)) ∧
    (absentOrHealthy st.npImport st.npSeedErr →
      raisesOther st.torchImport st.torchSeedErr k →
      set_all_seeds s st = .error (PyErr.otherError k)) ∧
    (absentOrHealthy st.npImport st.npSeedErr →
      absentOrHealthy st.torchImport st.torchSeedErr →
      raisesOther st.tfImport st.tfSeedErr k →
      set_all_seeds s st = .error (PyErr.otherError k)) ∧
    (absentOrHealthy st.npImport st.npSeedErr →
      absentOrHealthy st.torchImport st.torchSeedErr →
      absentOrHealthy st.tfImport st.tfSeedErr →
      st.jaxImport = some (PyErr.otherError k) →
      set_all_seeds s st = .error (PyErr.otherError k)) := by
  obtain ⟨g, pyr, npr, tor, cur, cua, cdet, cbm, tfr, env, tIm, tCu, tSe, fIm, fSe, nIm, nSe, jIm⟩ := st
  refine ⟨fun hr => ?_, fun h1 hr => ?_, fun h1 h2 hr => ?_, fun h1 h2 h3 hj => ?_⟩
  · rcases hr with h | ⟨ha, hb⟩ <;>
      simp only at * <;> subst_vars <;> rfl
  · rcases h1 with h | ⟨ha, hb⟩ <;> rcases hr with h' | ⟨ha', hb'⟩ <;>
      simp only at * <;> subst_vars <;> rfl
  · rcases h1 with h | ⟨ha, hb⟩ <;> rcases h2 with h' | ⟨ha', hb'⟩ <;>
      rcases hr with h'' | ⟨ha'', hb''⟩ <;>
      simp only at * <;> subst_vars <;> cases tCu <;> rfl
  · rcases h1 with h | ⟨ha, hb⟩ <;> rcases h2 with h' | ⟨ha', hb'⟩ <;>
      rcases h3 with h'' | ⟨ha'', hb''⟩ <;>
      simp only at * <;> subst_vars <;> cases tCu <;> rfl

/-- Each per-backend helper catches only `ImportError`: a
non-`ImportError` from its import or its seeding call propagates. -/
theorem helpers_propagate (s : Int) (st : PyState) (k : Nat) :
    (raisesOther st.npImport st.npSeedErr k →
      _set_numpy_seed s st = .error (PyErr.otherError k)) ∧
    (raisesOther st.torchImport st.torchSeedErr k →
      _set_pytorch_seed s st = .error (PyErr.otherError k)) ∧
    (raisesOther st.tfImport st.tfSeedErr k →
      _set_tensorflow_seed s st = .error (PyErr.otherError k)) ∧
    (st.jaxImport = some (PyErr.otherError k) →
      _set_jax_seed s st = .error (PyErr.otherError k)) := by
  obtain ⟨g, pyr, npr, tor, cur, cua, cdet, cbm, tfr, env, tIm, tCu, tSe, fIm, fSe, nIm, nSe, jIm⟩ := st
  refine ⟨fun hr => ?_, fun hr => ?_, fun hr => ?_, fun hj => ?_⟩
  · rcases hr with h | ⟨ha, hb⟩ <;>
      simp only at * <;> subst_vars <;> rfl
  · rcases hr with h | ⟨ha, hb⟩ <;>
      simp only at * <;> subst_vars <;> rfl
  · rcases hr with h | ⟨ha, hb⟩ <;>
      simp only at * <;> subst_vars <;> rfl
  · simp only at hj
    subst hj
    rfl

/-- C4: Backend isolation.  For every seed and every mix of absent and
present backends: an absent backend (import raising `ImportError`)
never makes a broadcaster raise and never prevents the remaining
present backends from being seeded — in `set_seed` (PyTorch and
TensorFlow optional) and in `set_all_seeds` (NumPy, PyTorch,
TensorFlow and JAX optional, down to pure-language mode) — while only
the module-absent condition is caught per backend: a non-`ImportError`
raised by any backend's import or seeding call propagates to the
caller, from either broadcaster and from each per-backend helper. -/
theorem backend_isolation (s : Int) (st : PyState) (k : Nat) :
    (st.npSeedErr = none → absentOrHealthy st.torchImport st.torchSeedErr →
     absentOrHealthy st.tfImport st.tfSeedErr →
     ∃ st' tr, set_seed s st = .ok (st', tr) ∧
       st'.pyRng = RngState.seeded s ∧ st'.npRng = RngState.seeded s ∧
       (st.torchImport = some PyErr.importError → st'.torchRng = st.torchRng) ∧
       (st.torchImport = none → st'.torchRng = RngState.seeded s) ∧
       (st.tfImport = some PyErr.importError → st'.tfRng = st.tfRng) ∧
       (st.tfImport = none → st'.tfRng = RngState.seeded s)) ∧
    ((st.npSeedErr = some (PyErr.otherError k) →
       set_seed s st = .error (PyErr.otherError k)) ∧
     (st.npSeedErr = none → raisesOther st.torchImport st.torchSeedErr k →
       set_seed s st = .error (PyErr.otherError k)) ∧
     (st.npSeedErr = none → absentOrHealthy st.torchImport st.torchSeedErr →
       raisesOther st.tfImport st.tfSeedErr k →
       set_seed s st = .error (PyErr.otherError k))) ∧
    (absentOrHealthy st.npImport st.npSeedErr →
     absentOrHealthy st.torchImport st.torchSeedErr →
     absentOrHealthy st.tfImport st.tfSeedErr →
     st.jaxImport = some PyErr.importError ∨ st.jaxImport = none →
     ∃ st' tr out, set_all_seeds s st = .ok (st', tr, out) ∧
       st'.pyRng = RngState.seeded s ∧
       (st.npImport = some PyErr.importError → st'.npRng = st.npRng) ∧
       (st.npImport = none → st'.npRng = RngState.seeded s) ∧
       (st.torchImport = some PyErr.importError → st'.torchRng = st.torchRng) ∧
       (st.torchImport = none → st'.torchRng = RngState.seeded s) ∧
       (st.tfImport = some PyErr.importError → st'.tfRng = st.tfRng) ∧
       (st.tfImport = none → st'.tfRng = RngState.seeded s)) ∧
    ((raisesOther st.npImport st.npSeedErr k →
       set_all_seeds s st = .error (PyErr.otherError k)) ∧
     (absentOrHealthy st.npImport st.npSeedErr →
       raisesOther st.torchImport st.torchSeedErr k →
       set_all_seeds s st = .error (PyErr.otherError k)) ∧
     (absentOrHealthy st.npImport st.npSeedErr →
       absentOrHealthy st.torchImport st.torchSeedErr →
       raisesOther st.tfImport st.tfSeedErr k →
       set_all_seeds s st = .error (PyErr.otherError k)) ∧
     (absentOrHealthy st.npImport st.npSeedErr →
       absentOrHealthy st.torchImport st.torchSeedErr →
       absentOrHealthy st.tfImport st.tfSeedErr →
       st.jaxImport = some (PyErr.otherError k) →
       set_all_seeds s st = .error (PyErr.otherError k))) ∧
    ((raisesOther st.npImport st.npSeedErr k →
       _set_numpy_seed s st = .error (PyErr.otherError k)) ∧
     (raisesOther st.torchImport st.torchSeedErr k →
       _set_pytorch_seed s st = .error (PyErr.otherError k)) ∧
     (raisesOther st.tfImport st.tfSeedErr k →
       _set_tensorflow_seed s st = .error (PyErr.otherError k)) ∧
     (st.jaxImport = some (PyErr.otherError k) →
       _set_jax_seed s st = .error (PyErr.otherError k))) :=
  ⟨set_seed_isolation s st, set_seed_propagates s st k,
   set_all_seeds_isolation s st, set_all_seeds_propagates s st k,
   helpers_propagate s st k⟩

/-- Witness for C4 at seed 7: with both ML backends absent `set_seed`
succeeds and seeds Python and NumPy only; in pure-language mode
`set_all_seeds` succeeds and seeds only the Python generator; and each
backend's non-`ImportError` failure propagates from the broadcasters
and the helpers. -/
theorem backend_isolation_witness :
    (∃ st' tr, set_seed 7 stMLAbsent = .ok (st', tr) ∧
       st'.pyRng = RngState.seeded 7 ∧ st'.npRng = RngState.seeded 7 ∧
       st'.torchRng = stMLAbsent.torchRng ∧ st'.tfRng = stMLAbsent.tfRng) ∧
    set_seed 7 stNpBroken = .error (PyErr.otherError 3) ∧
    set_seed 7 stTorchBroken = .error (PyErr.otherError 3) ∧
    set_seed 7 stTfImportBroken = .error (PyErr.otherError 3) ∧
    (∃ st' tr out, set_all_seeds 7 stPureLang = .ok (st', tr, out) ∧
       st'.pyRng = RngState.seeded 7 ∧ st'.npRng = stPureLang.npRng ∧
       st'.torchRng = stPureLang.torchRng ∧ st'.tfRng = stPureLang.tfRng) ∧
    set_all_seeds 7 stNpBroken = .error (PyErr.otherError 3) ∧
    _set_numpy_seed 7 stNpBroken = .error (PyErr.otherError 3) ∧
    _set_pytorch_seed 7 stTorchBroken = .error (PyErr.otherError 3) ∧
    _set_tensorflow_seed 7 stTfSeedBroken = .error (PyErr.otherError 3) ∧
    _set_jax_seed 7 stJaxBroken = .error (PyErr.otherError 3) := by
  refine ⟨?_, ?_, ?_, ?_, ?_, ?_, ?_, ?_, ?_, ?_⟩
  · obtain ⟨st', tr, h1, h2, h3, h4, h5, h6, h7⟩ :=
      (backend_isolation 7 stMLAbsent 3).1 rfl (Or.inl rfl) (Or.inl rfl)
    exact ⟨st', tr, h1, h2, h3, h4 rfl, h6 rfl⟩
  · exact (backend_isolation 7 stNpBroken 3).2.1.1 rfl
  · exact (backend_isolation 7 stTorchBroken 3).2.1.2.1 rfl (Or.inr ⟨rfl, rfl⟩)
  · exact (backend_isolation 7 stTfImportBroken 3).2.1.2.2 rfl (Or.inr ⟨rfl, rfl⟩)
      (Or.inl rfl)
  · obtain ⟨st', tr, out, h1, h2, h3, h4, h5, h6, h7, h8⟩ :=
      (backend_isolation 7 stPureLang 3).2.2.1 (Or.inl rfl) (Or.inl rfl) (Or.inl rfl)
        (Or.inl rfl)
    exact ⟨st', tr, out, h1, h2, h3 rfl, h5 rfl, h7 rfl⟩
  · exact (backend_isolation 7 stNpBroken 3).2.2.2.1.1 (Or.inr ⟨rfl, rfl⟩)
  · exact (backend_isolation 7 stNpBroken 3).2.2.2.2.1 (Or.inr ⟨rfl, rfl⟩)
  · exact (backend_isolation 7 stTorchBroken 3).2.2.2.2.2.1 (Or.inr ⟨rfl, rfl⟩)
  · exact (backend_isolation 7 stTfSeedBroken 3).2.2.2.2.2.2.1 (Or.inr ⟨rfl, rfl⟩)
  · exact (backend_isolation 7 stJaxBroken 3).2.2.2.2.2.2.2 rfl

/-- C5 counterexample: with every backend present, the trace of
`reproducibility.set_seed` violates the spec's claimed order, because
NumPy is seeded before `PYTHONHASHSEED` is set. -/
theorem broadcast_order_counterexample :
    (set_seed 0 initState).map (fun p => claimedBroadcastOrder p.2) = Except.ok false := by
  rfl

/-- C5 (amended): each broadcaster applies the seed in its own fixed
deterministic order.  `set_all_seeds` follows the claimed order
(language generator, hash control, then NumPy, PyTorch, TensorFlow,
JAX), while `set_seed` seeds NumPy *before* setting the
hash-randomization control (language generator, NumPy, hash control,
PyTorch, TensorFlow). -/
theorem broadcast_order (s : Int) (st : PyState)
    (h1 : st.npSeedErr = none) (h2 : st.torchImport = none) (h3 : st.torchSeedErr = none)
    (h4 : st.tfImport = none) (h5 : st.tfSeedErr = none) (h6 : st.npImport = none)
    (h7 : st.jaxImport = none) :
    (set_seed s st).map Prod.snd = .ok [Action.seedPythonRandom, Action.seedNumpy,
      Action.setHashSeed, Action.seedTorch, Action.seedTf] ∧
    (set_all_seeds s st).map (fun p => p.2.1) = .ok [Action.seedPythonRandom,
      Action.setHashSeed, Action.seedNumpy, Action.seedTorch, Action.seedTf,
      Action.seedJax] ∧
    claimedBroadcastOrder [Action.seedPythonRandom, Action.setHashSeed, Action.seedNumpy,
      Action.seedTorch, Action.seedTf, Action.seedJax] = true := by
  obtain ⟨g, pyr, npr, tor, cur, cua, cdet, cbm, tfr, env, tIm, tCu, tSe, fIm, fSe, nIm, nSe, jIm⟩ := st
  simp only at h1 h2 h3 h4 h5 h6 h7
  subst h1 h2 h3 h4 h5 h6 h7
  refine ⟨?_, ?_, by decide⟩ <;> cases tCu <;> rfl

/-- Witness for C5 (amended) at seed 3 from `initState`. -/
theorem broadcast_order_witness :
    (set_seed 3 initState).map Prod.snd = .ok [Action.seedPythonRandom, Action.seedNumpy,
      Action.setHashSeed, Action.seedTorch, Action.seedTf] ∧
    (set_all_seeds 3 initState).map (fun p => p.2.1) = .ok [Action.seedPythonRandom,
      Action.setHashSeed, Action.seedNumpy, Action.seedTorch, Action.seedTf,
      Action.seedJax] ∧
    claimedBroadcastOrder [Action.seedPythonRandom, Action.setHashSeed, Action.seedNumpy,
      Action.seedTorch, Action.seedTf, Action.seedJax] = true :=
  broadcast_order 3 initState rfl rfl rfl rfl rfl rfl rfl

/-- When no non-`ImportError` fault is configured, `set_seed` returns
normally, preserves that property, and never touches `RANDOM_SEED`. -/
theorem set_seed_total (s : Int) {st : PyState} (h : setSeedOk st = true) :
    ∃ st' tr, set_seed s st = .ok (st', tr) ∧ setSeedOk st' = true ∧
      st'.randomSeedGlobal = st.randomSeedGlobal := by
  obtain ⟨g, pyr, npr, tor, cur, cua, cdet, cbm, tfr, env, tIm, tCu, tSe, fIm, fSe, nIm, nSe, jIm⟩ := st
  rcases nSe with _ | e <;>
  rcases tIm with _ | (_ | k1) <;>
  rcases tSe with _ | (_ | k2) <;>
  rcases fIm with _ | (_ | k3) <;>
  rcases fSe with _ | (_ | k4) <;>
  cases tCu <;>
  first
    | exact ⟨_, _, rfl, rfl, rfl⟩
    | simp [setSeedOk] at h

/-- The `verify_reproducibility` loop returns normally and collects
exactly one result per iteration, for any computation that returns
normally and does not break later seeding. -/
theorem runLoop_ok {α : Type} (f : PyState → Except PyErr (α × PyState))
    (hf : ∀ st1, ∃ r st2, f st1 = .ok (r, st2) ∧ setSeedOk st2 = setSeedOk st1) :
    ∀ (n : Nat) (s : Int) (st : PyState), setSeedOk st = true →
      ∃ rs st', runLoop f n s st = .ok (rs, st') ∧ rs.length = n ∧
        setSeedOk st' = true := by
  intro n
  induction n with
  | zero => intro s st hok; exact ⟨[], st, rfl, rfl, hok⟩
  | succ m ih =>
      intro s st hok
      obtain ⟨st1, tr, hset, hok1, _⟩ := set_seed_total s hok
      obtain ⟨r, st2, hr, hok2⟩ := hf st1
      obtain ⟨rs, st3, hloop, hlen, hok3⟩ := ih s st2 (by rw [hok2, hok1])
      refine ⟨r :: rs, st3, ?_, by simp [hlen], hok3⟩
      simp [runLoop, hset, hr, hloop]

/-- The verifier's comparison `all(r == results[0] for r in results)`
holds exactly when the collected results are pairwise equal. -/
theorem allEqHead_iff {α : Type} [DecidableEq α] (rs : List α) :
    allEqHead rs = true ↔ ∀ x ∈ rs, ∀ y ∈ rs, x = y := by
  cases rs with
  | nil => simp [allEqHead]
  | cons r0 rest =>
      simp only [allEqHead, List.all_eq_true, decide_eq_true_eq]
      constructor
      · intro h x hx y hy
        exact (h x hx).trans (h y hy).symm
      · intro h r hr
        exact h r hr r0 (List.mem_cons_self r0 rest)

/-- C2: For every normally-returning computation, every seed and every
`runs ≥ 2`, the verifier performs exactly `runs` iterations (each
re-seeding via `set_seed` and then invoking the computation, as
`runLoop` does) and returns true iff all collected results are equal
under value equality. -/
theorem verifier_counts_and_compares {α : Type} [DecidableEq α]
    (f : PyState → Except PyErr (α × PyState)) (n : Nat) (s : Int) (st : PyState)
    (hn : 2 ≤ n)
    (hf : ∀ st1, ∃ r st2, f st1 = .ok (r, st2) ∧ setSeedOk st2 = setSeedOk st1)
    (hok : setSeedOk st = true) :
    ∃ rs st', runLoop f n s st = .ok (rs, st') ∧ rs.length = n ∧
      verify_reproducibility f n s st = .ok (allEqHead rs, st') ∧
      (allEqHead rs = true ↔ ∀ x ∈ rs, ∀ y ∈ rs, x = y) := by
  obtain ⟨rs, st', hloop, hlen, _⟩ := runLoop_ok f hf n s st hok
  exact ⟨rs, st', hloop, hlen, by simp [verify_reproducibility, hloop], allEqHead_iff rs⟩

/-- Witness for C2 with the state-reading sample computation, seed 5
and 2 runs from `initState`. -/
theorem verifier_counts_and_compares_witness :
    2 ≤ 2 ∧
    (∃ rs st', runLoop sampleDraw 2 5 initState = .ok (rs, st') ∧ rs.length = 2 ∧
      verify_reproducibility sampleDraw 2 5 initState = .ok (allEqHead rs, st') ∧
      (allEqHead rs = true ↔ ∀ x ∈ rs, ∀ y ∈ rs, x = y)) :=
  ⟨by decide, verifier_counts_and_compares sampleDraw 2 5 initState (by decide)
    (fun st1 => ⟨st1.pyRng, st1, rfl, rfl⟩) rfl⟩

/-- C3 counterexample: `verify_reproducibility` with `n_runs = 1` is
not rejected — here it returns the normal boolean success `true`. -/
theorem runs_floor_counterexample :
    (verify_reproducibility sampleDraw 1 42 initState).map Prod.fst = Except.ok true := by
  rfl

/-- C3 (amended): a single-run verification is not rejected as a
contract violation; it performs its one run and returns the normal
boolean `true` (trivially reproducible) whenever the computation
returns normally. -/
theorem runs_floor_not_rejected {α : Type} [DecidableEq α]
    (f : PyState → Except PyErr (α × PyState)) (s : Int) (st : PyState)
    (hok : setSeedOk st = true)
    (hf : ∀ st1, ∃ r st2, f st1 = .ok (r, st2)) :
    (verify_reproducibility f 1 s st).map Prod.fst = .ok true := by
  obtain ⟨st1, tr, hset, _, _⟩ := set_seed_total s hok
  obtain ⟨r, st2, hr⟩ := hf st1
  simp [verify_reproducibility, runLoop, hset, hr, allEqHead, Except.map]

/-- Witness for C3 (amended) at seed 9 from `initState`. -/
theorem runs_floor_not_rejected_witness :
    setSeedOk initState = true ∧
    (verify_reproducibility sampleDraw 1 9 initState).map Prod.fst = .ok true :=
  ⟨rfl, runs_floor_not_rejected sampleDraw 9 initState rfl
    (fun st1 => ⟨st1.pyRng, st1, rfl⟩)⟩

/-- C8: a computation that raises makes the verifier propagate that
very exception instead of returning a boolean verdict. -/
theorem crash_propagates {α : Type} [DecidableEq α]
    (f : PyState → Except PyErr (α × PyState)) (e : PyErr) (n : Nat) (s : Int)
    (st : PyState) (hn : 1 ≤ n) (hok : setSeedOk st = true)
    (hf : ∀ st1, f st1 = .error e) :
    verify_reproducibility f n s st = .error e := by
  obtain ⟨m, rfl⟩ : ∃ m, n = m + 1 := ⟨n - 1, by omega⟩
  obtain ⟨st1, tr, hset, _, _⟩ := set_seed_total s hok
  simp [verify_reproducibility, runLoop, hset, hf st1]

/-- Witness for C8: the always-raising computation makes the verifier
raise `otherError 7` at seed 42 with 3 runs from `initState`. -/
theorem crash_propagates_witness :
    1 ≤ 3 ∧ setSeedOk initState = true ∧
    verify_reproducibility crashingComp 3 42 initState = .error (PyErr.otherError 7) :=
  ⟨by decide, rfl, crash_propagates crashingComp (PyErr.otherError 7) 3 42 initState
    (by decide) rfl (fun _ => rfl)⟩

/-- Every character `hexChar` can produce is a lowercase hex digit. -/
theorem hexChar_mem (n : Nat) : hexChar n ∈ hexDigitChars := by
  rcases Nat.lt_or_ge n 16 with h | h
  · interval_cases n <;> decide
  · have hlen : hexDigitChars.length ≤ n := by simpa [hexDigitChars] using h
    rw [hexChar, List.getD_eq_default _ _ hlen]
    decide

/-- `beBytes k` always yields `k` bytes. -/
theorem beBytes_length (k : Nat) : ∀ n, (beBytes k n).length = k := by
  induction k with
  | zero => intro n; rfl
  | succ m ih => intro n; simp [beBytes, ih]

/-- A SHA-256 digest is exactly 32 bytes. -/
theorem digestBytes_length (st : Sha256State) : (digestBytes st).length = 32 := by
  simp [digestBytes, beBytes_length]

/-- Hex encoding doubles the byte count. -/
theorem bytesToHexChars_length (bs : List Nat) :
    (bytesToHexChars bs).length = 2 * bs.length := by
  induction bs with
  | nil => rfl
  | cons b rest ih =>
      simp [bytesToHexChars] at ih ⊢
      omega

/-- Every character of a hex encoding is a lowercase hex digit. -/
theorem bytesToHexChars_mem (bs : List Nat) :
    ∀ c ∈ bytesToHexChars bs, c ∈ hexDigitChars := by
  induction bs with
  | nil => intro c hc; simp [bytesToHexChars] at hc
  | cons b rest ih =>
      intro c hc
      simp only [bytesToHexChars, List.flatMap_cons, List.mem_append] at hc
      rcases hc with hc | hc
      · simp only [List.mem_cons, List.not_mem_nil, or_false] at hc
        rcases hc with rfl | rfl
        · exact hexChar_mem _
        · exact hexChar_mem _
      · exact ih c hc

/-- A SHA-256 hexdigest is exactly 64 characters. -/
theorem sha256hexChars_length (msg : List Nat) : (sha256hexChars msg).length = 64 := by
  simp [sha256hexChars, bytesToHexChars_length, digestBytes_length]

/-- C6: Checksum determinism.  The checksum attached by
`create_experiment_manifest` is exactly the first 16 hex characters of
the SHA-256 hexdigest of the canonical (sorted-keys) serialization of
the record's fields — hence a deterministic function of name, seed,
params, timestamp and environment versions — and it always consists of
exactly 16 lowercase hexadecimal characters. -/
theorem checksum_deterministic (name : String) (seed : Int)
    (params : Option (List (String × JVal))) (ts pyv npv : String) :
    (create_experiment_manifest name seed params ts pyv npv).checksum =
      String.mk ((sha256hexChars (utf8Encode
        (manifestStr name seed (params.getD []) ts pyv npv))).take 16) ∧
    (create_experiment_manifest name seed params ts pyv npv).checksum.data.length = 16 ∧
    ∀ c ∈ (create_experiment_manifest name seed params ts pyv npv).checksum.data,
      c ∈ hexDigitChars := by
  refine ⟨rfl, ?_, ?_⟩
  · show ((sha256hexChars _).take 16).length = 16
    rw [List.length_take, sha256hexChars_length]
    decide
  · intro c hc
    have hc' : c ∈ sha256hexChars (utf8Encode
        (manifestStr name seed (params.getD []) ts pyv npv)) :=
      List.take_subset _ _ hc
    exact bytesToHexChars_mem _ c hc'

/-- C9: the checksum is computed over the canonical serialization of
the record *before* the checksum field is attached (exactly the seven
descriptive fields), so a reader that strips the `checksum` field and
re-hashes the rest reproduces the stored checksum. -/
theorem checksum_excludes_itself (name : String) (seed : Int)
    (params : Option (List (String × JVal))) (ts pyv npv : String) :
    verifyChecksum (manifestToJson
      (create_experiment_manifest name seed params ts pyv npv)) = true := by
  simp [verifyChecksum, manifestToJson, create_experiment_manifest, getKey,
        getKey.lookupField, removeKey, removeKey.dropField, manifestStr, manifestCore]

/-- C7: Round-trip.  Persisting a freshly built manifest with
`save_experiment` and reading the written file back yields a record
equal in all fields to the in-memory manifest — the checksum field
included. -/
theorem manifest_roundtrip (name : String) (seed : Int)
    (params : Option (List (String × JVal))) (ts pyv npv : String)
    (fs : FileStore) (dir : String) :
    fsRead (save_experiment (create_experiment_manifest name seed params ts pyv npv) fs dir).2
           (save_experiment (create_experiment_manifest name seed params ts pyv npv) fs dir).1
      = some (manifestToJson (create_experiment_manifest name seed params ts pyv npv)) ∧
    getKey (manifestToJson (create_experiment_manifest name seed params ts pyv npv)) "checksum"
      = some (.jstr (create_experiment_manifest name seed params ts pyv npv).checksum) := by
  constructor
  · simp [save_experiment, fsWrite, fsRead]
  · simp [manifestToJson, getKey, getKey.lookupField]

/-- C10: `get_seed` always returns the `RANDOM_SEED` value resolved
once at module load from the environment (42 when the variable is
absent), and `set_seed` — whatever seed it is given — leaves the value
returned by subsequent `get_seed` calls unchanged. -/
theorem get_seed_constant (env : List (String × String)) (v : Int) (st st' : PyState)
    (s : Int) (tr : List Action)
    (hload : resolveRandomSeed env = some v) (hst : st.randomSeedGlobal = v) :
    get_seed st = v ∧
    (set_seed s st = .ok (st', tr) → get_seed st' = v) ∧
    (envGet env "RANDOM_SEED" = none → v = 42) := by
  refine ⟨hst, fun h => ?_, fun hnone => ?_⟩
  · rw [get_seed, (set_seed_fields s h).2.2]
    exact hst
  · rw [resolveRandomSeed, hnone] at hload
    have h42 : pyInt? (Option.getD none "42") = some 42 := by decide
    rw [h42] at hload
    exact (Option.some.inj hload).symm

/-- Witness for C10: empty environment resolves to 42, and seeding
with 5 leaves `get_seed` at 42. -/
theorem get_seed_constant_witness :
    resolveRandomSeed [] = some 42 ∧ initState.randomSeedGlobal = 42 ∧
    (get_seed initState = 42 ∧
     (set_seed 5 initState = .ok (wSt1, wTr1) → get_seed wSt1 = 42) ∧
     (envGet [] "RANDOM_SEED" = none → (42 : Int) = 42)) :=
  ⟨by decide, rfl, get_seed_constant [] 42 initState wSt1 5 wTr1 (by decide) rfl⟩

end Presentar
